import Mathlib

/-!
Verification of the transactional document-storage core of a multi-model
database (collection locking, CRUD pipeline, index registry, recovery replay).

The definitions below are a shallow embedding of the C++ source
(TRI_collection_t and its helpers).  Pure control flow is translated
function-by-function; external collaborators that are not part of the
embedded file (secondary-index implementations, the WAL, the deadlock
detector, the merge helper) are modelled from the specification, with their
result codes supplied as environment-chosen oracle values.  Each such
definition carries a doc comment starting with "Modelled from the spec:".
-/

/-! ## Error codes (TRI_ERROR_...) -/

def TRI_ERROR_NO_ERROR : Nat := 0
def TRI_ERROR_OUT_OF_MEMORY : Nat := 3
def TRI_ERROR_LOCK_TIMEOUT : Nat := 18
def TRI_ERROR_DEADLOCK : Nat := 29
def TRI_ERROR_ARANGO_CONFLICT : Nat := 1200
def TRI_ERROR_ARANGO_DOCUMENT_NOT_FOUND : Nat := 1202
def TRI_ERROR_ARANGO_DOCUMENT_HANDLE_BAD : Nat := 1205
def TRI_ERROR_ARANGO_UNIQUE_CONSTRAINT_VIOLATED : Nat := 1210
def TRI_ERROR_ARANGO_DOCUMENT_KEY_BAD : Nat := 1221
def TRI_ERROR_ARANGO_DOCUMENT_TYPE_INVALID : Nat := 1227
def TRI_ERROR_ARANGO_INVALID_EDGE_ATTRIBUTE : Nat := 1233
def TRI_ERROR_ARANGO_DOCUMENT_REV_BAD : Nat := 1239
def TRI_ERROR_CLUSTER_MUST_NOT_CHANGE_SHARDING_ATTRIBUTES : Nat := 4003

/-! ## VelocyPack slices

A minimal model of the VelocyPack values the embedded code inspects:
the None slice, null, strings, numbers, and objects (ordered field lists).
Attribute values are modelled as atomic; nested payloads do not affect the
embedded control flow. -/

inductive VAtom where
  | nullV : VAtom
  | strV : String → VAtom
  | numV : Int → VAtom
deriving DecidableEq, Repr

inductive VPack where
  | noneSlice : VPack
  | nullSlice : VPack
  | str : String → VPack
  | num : Int → VPack
  | object : List (String × VAtom) → VPack
deriving DecidableEq, Repr

def VAtom.toSlice : VAtom → VPack
  | .nullV => .nullSlice
  | .strV s => .str s
  | .numV n => .num n

def VPack.getField : List (String × VAtom) → String → VPack
  | [], _ => .noneSlice
  | (k, v) :: rest, a => if k = a then v.toSlice else VPack.getField rest a

/-- Attribute lookup on an object slice; the None slice if absent or not an object. -/
def VPack.get (s : VPack) (a : String) : VPack :=
  match s with
  | .object fields => VPack.getField fields a
  | _ => .noneSlice

def VPack.isNone : VPack → Bool
  | .noneSlice => true
  | _ => false

def VPack.isString : VPack → Bool
  | .str _ => true
  | _ => false

def VPack.isObject : VPack → Bool
  | .object _ => true
  | _ => false

/-- Number of attributes of an object slice (VPackSlice::length). -/
def VPack.length : VPack → Nat
  | .object fields => fields.length
  | _ => 0

/-! ## Document handles and indexes -/

/-- Master pointer (TRI_doc_mptr_t): the in-memory handle of the current
version of a document.  It points at the document's VelocyPack payload. -/
structure MPtr where
  vpack : VPack
  fid : Nat
deriving DecidableEq, Repr

/-- Transaction::extractKeyFromDocument: the key slice of a document. -/
def MPtr.keySlice (h : MPtr) : VPack := h.vpack.get "_key"

/-- TRI_doc_mptr_t::revisionIdAsSlice: the revision slice of the current version. -/
def MPtr.revSlice (h : MPtr) : VPack := h.vpack.get "_rev"

/-- PrimaryIndex::lookupKey: find the handle stored under a key. -/
def lookupKey (primary : List MPtr) (key : VPack) : Option MPtr :=
  primary.find? (fun h => h.keySlice == key)

/-- Modelled from the spec: PrimaryIndex::insertKey on the unique key→handle
map.  If the key is already present the existing handle is reported through
found and nothing is inserted; otherwise the handle is inserted.  (The index
implementation itself is an external collaborator.) -/
def primaryInsertKey (primary : List MPtr) (header : MPtr) :
    List MPtr × Nat × Option MPtr :=
  match lookupKey primary header.keySlice with
  | some found => (primary, TRI_ERROR_NO_ERROR, some found)
  | none => (header :: primary, TRI_ERROR_NO_ERROR, none)

/-- Modelled from the spec: PrimaryIndex::removeKey removes the entry stored
under the key and returns it, or returns nothing if the key is absent. -/
def primaryRemoveKey (primary : List MPtr) (key : VPack) :
    List MPtr × Option MPtr :=
  match lookupKey primary key with
  | some found => (primary.filter (fun h => h.keySlice != key), some found)
  | none => (primary, none)

/-- Modelled from the spec: a secondary-index collaborator holds a set of
non-owning handle references and implements insert/remove over it.  The
result code of each call is environment-chosen (the insertRes/removeRes
oracles); an insert only takes effect when the index reports success, and a
remove drops the handle's entries. -/
structure SecIndex where
  entries : List MPtr
  isPersistent : Bool
  insertRes : MPtr → Bool → Nat
  removeRes : MPtr → Bool → Nat

/-- Index::insert(handle, isRollback) of a secondary index. -/
def SecIndex.insert (idx : SecIndex) (header : MPtr) (isRollback : Bool) :
    SecIndex × Nat :=
  let res := idx.insertRes header isRollback
  if res = TRI_ERROR_NO_ERROR then
    ({ idx with entries := header :: idx.entries }, res)
  else
    (idx, res)

/-- Index::remove(handle, isRollback) of a secondary index. -/
def SecIndex.remove (idx : SecIndex) (header : MPtr) (isRollback : Bool) :
    SecIndex × Nat :=
  ({ idx with entries := idx.entries.filter (fun e => e != header) },
   idx.removeRes header isRollback)

/-! ## The collection -/

/-- TRI_collection_t, restricted to the state the embedded operations touch.
walOps models the operation records successfully handed to the WAL. -/
structure Collection where
  primary : List MPtr
  secondaries : List SecIndex
  useSecIdx : Bool
  persistentIndexes : Nat
  numberDocuments : Nat
  walOps : List MPtr

/-- Loop body of TRI_collection_t::insertSecondaryIndexes over the secondary
indexes (allIndexes()[1..]): out-of-memory aborts immediately, any other
failure is recorded (preferring a unique-constraint violation) and the loop
continues with the remaining indexes. -/
def insertSecLoop (useSecondary : Bool) (header : MPtr) (isRollback : Bool) :
    List SecIndex → Nat → List SecIndex × Nat
  | [], result => ([], result)
  | idx :: rest, result =>
    if useSecondary = false ∧ idx.isPersistent = false then
      let out := insertSecLoop useSecondary header isRollback rest result
      (idx :: out.1, out.2)
    else
      let step := idx.insert header isRollback
      if step.2 = TRI_ERROR_OUT_OF_MEMORY then
        (step.1 :: rest, step.2)
      else
        let result' :=
          if step.2 ≠ TRI_ERROR_NO_ERROR then
            if step.2 = TRI_ERROR_ARANGO_UNIQUE_CONSTRAINT_VIOLATED ∨
                result = TRI_ERROR_NO_ERROR then step.2
            else result
          else result
        let out := insertSecLoop useSecondary header isRollback rest result'
        (step.1 :: out.1, out.2)

/-- TRI_collection_t::insertSecondaryIndexes. -/
def Collection.insertSecondaryIndexes (c : Collection) (header : MPtr)
    (isRollback : Bool) : Collection × Nat :=
  if c.useSecIdx = false ∧ c.persistentIndexes = 0 then
    (c, TRI_ERROR_NO_ERROR)
  else
    let out := insertSecLoop c.useSecIdx header isRollback c.secondaries
      TRI_ERROR_NO_ERROR
    ({ c with secondaries := out.1 }, out.2)

/-- Loop body of TRI_collection_t::deleteSecondaryIndexes: every secondary
index is visited; the last failure code is kept. -/
def deleteSecLoop (useSecondary : Bool) (header : MPtr) (isRollback : Bool) :
    List SecIndex → Nat → List SecIndex × Nat
  | [], result => ([], result)
  | idx :: rest, result =>
    if useSecondary = false ∧ idx.isPersistent = false then
      let out := deleteSecLoop useSecondary header isRollback rest result
      (idx :: out.1, out.2)
    else
      let step := idx.remove header isRollback
      let result' := if step.2 ≠ TRI_ERROR_NO_ERROR then step.2 else result
      let out := deleteSecLoop useSecondary header isRollback rest result'
      (step.1 :: out.1, out.2)

/-- TRI_collection_t::deleteSecondaryIndexes. -/
def Collection.deleteSecondaryIndexes (c : Collection) (header : MPtr)
    (isRollback : Bool) : Collection × Nat :=
  if c.useSecIdx = false ∧ c.persistentIndexes = 0 then
    (c, TRI_ERROR_NO_ERROR)
  else
    let out := deleteSecLoop c.useSecIdx header isRollback c.secondaries
      TRI_ERROR_NO_ERROR
    ({ c with secondaries := out.1 }, out.2)

/-- TRI_collection_t::insertPrimaryIndex: creates a new entry in the primary
index; reports a unique-constraint violation when the key already exists. -/
def Collection.insertPrimaryIndex (c : Collection) (header : MPtr) :
    Collection × Nat :=
  let out := primaryInsertKey c.primary header
  if out.2.1 ≠ TRI_ERROR_NO_ERROR then
    (c, out.2.1)
  else
    match out.2.2 with
    | none => ({ c with primary := out.1 }, TRI_ERROR_NO_ERROR)
    | some _ => (c, TRI_ERROR_ARANGO_UNIQUE_CONSTRAINT_VIOLATED)

/-- TRI_collection_t::deletePrimaryIndex. -/
def Collection.deletePrimaryIndex (c : Collection) (header : MPtr) :
    Collection × Nat :=
  let out := primaryRemoveKey c.primary header.keySlice
  match out.2 with
  | none => (c, TRI_ERROR_ARANGO_DOCUMENT_NOT_FOUND)
  | some _ => ({ c with primary := out.1 }, TRI_ERROR_NO_ERROR)

/-- Modelled from the spec: TRI_AddOperationTransaction hands the operation
record to the WAL collaborator; append returns success-with-tick or a
storage error (the environment-chosen walRes).  On success the record
becomes durable. -/
def addOperationTransaction (c : Collection) (op : MPtr) (walRes : Nat) :
    Collection × Nat :=
  if walRes = TRI_ERROR_NO_ERROR then
    ({ c with walOps := op :: c.walOps }, walRes)
  else
    (c, walRes)

/-- TRI_collection_t::insertDocument, the low-level insert worker: primary
index first, then the secondary indexes; a secondary failure unwinds the
secondary insertions and the primary entry; on full success the live counter
is incremented and the operation is handed to the WAL. -/
def Collection.insertDocument (c : Collection) (header : MPtr) (walRes : Nat) :
    Collection × Nat × Option MPtr :=
  let p := c.insertPrimaryIndex header
  if p.2 ≠ TRI_ERROR_NO_ERROR then
    (p.1, p.2, none)
  else
    let s := p.1.insertSecondaryIndexes header false
    if s.2 ≠ TRI_ERROR_NO_ERROR then
      let u := s.1.deleteSecondaryIndexes header true
      let q := u.1.deletePrimaryIndex header
      (q.1, s.2, none)
    else
      let c' := { s.1 with numberDocuments := s.1.numberDocuments + 1 }
      let w := addOperationTransaction c' header walRes
      if w.2 = TRI_ERROR_NO_ERROR then
        (w.1, w.2, some header)
      else
        (w.1, w.2, none)

/-- TRI_collection_t::checkRevision: unless no expected revision was
supplied, the expected revision must equal the found (current) one. -/
def checkRevision (expected found : VPack) : Nat :=
  if expected.isNone = false ∧ found ≠ expected then
    TRI_ERROR_ARANGO_CONFLICT
  else
    TRI_ERROR_NO_ERROR

/-- TRI_collection_t::lookupDocument: key must be a string; looks the key up
in the primary index. -/
def Collection.lookupDocument (c : Collection) (key : VPack) :
    Nat × Option MPtr :=
  if key.isString = false then
    (TRI_ERROR_ARANGO_DOCUMENT_KEY_BAD, none)
  else
    match lookupKey c.primary key with
    | none => (TRI_ERROR_ARANGO_DOCUMENT_NOT_FOUND, none)
    | some h => (TRI_ERROR_NO_ERROR, some h)

/-- System attributes of a document. -/
def isSystemAttribute (a : String) : Bool :=
  a = "_key" ∨ a = "_id" ∨ a = "_rev" ∨ a = "_from" ∨ a = "_to"

/-- Demotes a slice to an atomic attribute value (attribute values are
modelled as atomic, see the VPack model note). -/
def VPack.toAtom : VPack → VAtom
  | .str s => .strV s
  | .num n => .numV n
  | _ => .nullV

/-- Modelled from the spec: VPackCollection::merge of the VelocyPack library
(not part of this repository) deep-merges two sub-objects.  With attribute
values modelled as atomic the branch calling it is unreachable, and the
delta's value stands for the merge result. -/
def vpackCollectionMerge (_oldV newV : VAtom) : VAtom := newV

/-- TRI_collection_t::mergeObjectsForUpdate: builds the updated document
from the old document and the delta.  System attributes come first in the
source's order — the old _key and _id, then _from/_to for an edge collection
(the delta's values when given, else the old ones), then the new revision.
Then the old non-system attributes are walked in order: an attribute the
delta does not mention keeps its old value; when the delta mentions it and
both values are objects and mergeObjects is set, the two values are
deep-merged (unreachable with atomic attribute values); otherwise the
delta's value is taken — in both cases subject to the keepNull policy (an
explicit null in the delta deletes the attribute unless keepNull is set).
Finally the attributes only the delta carries are appended, again subject to
keepNull.  The source asserts the old document carries _key and _id, and
that _from/_to are present for an edge collection (null stands for the
asserted-impossible absent cases). -/
def mergeObjectsForUpdate (oldValue newValue : VPack)
    (isEdgeCollection : Bool) (rev : String) (mergeObjects keepNull : Bool) :
    VPack :=
  match oldValue, newValue with
  | .object oldFields, .object newFields =>
    let keySlice : VAtom :=
      match oldFields.find? (fun kv => kv.1 == "_key") with
      | some kv => kv.2
      | none => .nullV
    let idSlice : VAtom :=
      match oldFields.find? (fun kv => kv.1 == "_id") with
      | some kv => kv.2
      | none => .nullV
    let newValues := newFields.filter (fun kv => isSystemAttribute kv.1 = false)
    let fromNew := newFields.find? (fun kv => kv.1 == "_from")
    let toNew := newFields.find? (fun kv => kv.1 == "_to")
    let fromSlice :=
      if isEdgeCollection = true ∧ fromNew = none then
        oldFields.find? (fun kv => kv.1 == "_from")
      else fromNew
    let toSlice :=
      if isEdgeCollection = true ∧ toNew = none then
        oldFields.find? (fun kv => kv.1 == "_to")
      else toNew
    let sysAttrs :=
      [("_key", keySlice), ("_id", idSlice)] ++
      (if isEdgeCollection = true then
        [("_from", (fromSlice.map Prod.snd).getD VAtom.nullV),
         ("_to", (toSlice.map Prod.snd).getD VAtom.nullV)]
      else []) ++
      [("_rev", VAtom.strV rev)]
    let keptOld := oldFields.filterMap (fun kv =>
      if isSystemAttribute kv.1 = true then none
      else
        match newValues.find? (fun kv2 => kv2.1 == kv.1) with
        | none => some kv
        | some kv2 =>
          if mergeObjects = true ∧ (VAtom.toSlice kv.2).isObject = true ∧
              (VAtom.toSlice kv2.2).isObject = true then
            if keepNull = true ∨ kv2.2 ≠ VAtom.nullV then
              some (kv.1, vpackCollectionMerge kv.2 kv2.2)
            else none
          else
            if keepNull = true ∨ kv2.2 ≠ VAtom.nullV then
              some (kv.1, kv2.2)
            else none)
    let oldNonSystem :=
      oldFields.filter (fun kv => isSystemAttribute kv.1 = false)
    let remaining := newValues.filter (fun kv2 =>
      oldNonSystem.find? (fun kv => kv.1 == kv2.1) = none ∧
      (keepNull = true ∨ kv2.2 ≠ VAtom.nullV))
    .object (sysAttrs ++ keptOld ++ remaining)
  | _, _ => .noneSlice

/-- TRI_collection_t::updateDocument, the low-level update worker: removes
the old version from the secondary indexes (the primary entry stays, the key
does not change), repoints the header at the new version, reinserts into the
secondary indexes; a secondary failure restores the old version's content
and entries before propagating; on success the operation goes to the WAL. -/
def Collection.updateDocument (c : Collection) (oldHeader : MPtr)
    (newVPack : VPack) (walRes : Nat) : Collection × Nat × Option MPtr :=
  let d := c.deleteSecondaryIndexes oldHeader false
  if d.2 ≠ TRI_ERROR_NO_ERROR then
    let r := d.1.insertSecondaryIndexes oldHeader true
    (r.1, d.2, none)
  else
    let newHeader : MPtr := { oldHeader with vpack := newVPack }
    let p1 := d.1.primary.map (fun e => if e == oldHeader then newHeader else e)
    let c1 := { d.1 with primary := p1 }
    let i := c1.insertSecondaryIndexes newHeader false
    if i.2 ≠ TRI_ERROR_NO_ERROR then
      let u := i.1.deleteSecondaryIndexes newHeader true
      let p2 := u.1.primary.map (fun e => if e == newHeader then oldHeader else e)
      let c2 := { u.1 with primary := p2 }
      let r := c2.insertSecondaryIndexes oldHeader true
      (r.1, i.2, none)
    else
      let w := addOperationTransaction i.1 newHeader walRes
      if w.2 = TRI_ERROR_NO_ERROR then
        (w.1, w.2, some newHeader)
      else
        (w.1, w.2, none)

/-- TRI_collection_t::update.  The restore-path revision selection
(options.isRestore) and the TRI_IF_FAILURE test hooks are omitted: both only
choose the fresh revision value or short-circuit tests.  newRevId plays the
role of the freshly minted hybrid-logical-clock revision; mergeObjects and
keepNull are the caller's merge-policy options; isEdgeCollection stands for
the collection type test; isDBServer and shardKeysChangedOracle model the
distributed-mode guard.  The result is (state, error, mptr, prevRev). -/
def Collection.update (c : Collection) (newSlice : VPack)
    (ignoreRevs mergeObjects keepNull : Bool) (newRevId : String)
    (isEdgeCollection isDBServer shardKeysChangedOracle : Bool)
    (walRes : Nat) : Collection × Nat × Option MPtr × VPack :=
  if newSlice.isObject = false then
    (c, TRI_ERROR_ARANGO_DOCUMENT_TYPE_INVALID, none, .noneSlice)
  else
    let key := newSlice.get "_key"
    if key.isNone = true then
      (c, TRI_ERROR_ARANGO_DOCUMENT_HANDLE_BAD, none, .noneSlice)
    else
      let look := c.lookupDocument key
      match look.2 with
      | none => (c, look.1, none, .noneSlice)
      | some oldHeader =>
        let prevRev := oldHeader.revSlice
        let revCheck :=
          if ignoreRevs = false then
            checkRevision (newSlice.get "_rev") prevRev
          else TRI_ERROR_NO_ERROR
        if revCheck ≠ TRI_ERROR_NO_ERROR then
          (c, revCheck, none, prevRev)
        else if newSlice.length ≤ 1 then
          (c, TRI_ERROR_NO_ERROR, some oldHeader, prevRev)
        else
          let merged := mergeObjectsForUpdate oldHeader.vpack newSlice
            isEdgeCollection newRevId mergeObjects keepNull
          if isDBServer = true ∧ shardKeysChangedOracle = true then
            (c, TRI_ERROR_CLUSTER_MUST_NOT_CHANGE_SHARDING_ATTRIBUTES, none,
             prevRev)
          else
            let u := c.updateDocument oldHeader merged walRes
            (u.1, u.2.1, u.2.2, prevRev)

/-- Modelled from the spec: TRI_SanitizeObjectWithEdges (not part of this
repository) copies a document's attributes into the builder with the system
attributes stripped. -/
def sanitizeObjectWithEdges (fields : List (String × VAtom)) :
    List (String × VAtom) :=
  fields.filter (fun kv => isSystemAttribute kv.1 = false)

/-- TRI_collection_t::newObjectForReplace: system attributes first in the
source's order — the old _key and _id, then the supplied _from/_to slices
for an edge collection, then the new revision — followed by the replacing
document's non-system attributes.  The source asserts the old document
carries _key and _id and that the edge slices are present (null stands for
the asserted-impossible absent cases). -/
def newObjectForReplace (oldValue newValue fromSlice toSlice : VPack)
    (isEdgeCollection : Bool) (rev : String) : VPack :=
  match oldValue, newValue with
  | .object oldFields, .object newFields =>
    let keySlice : VAtom :=
      match oldFields.find? (fun kv => kv.1 == "_key") with
      | some kv => kv.2
      | none => .nullV
    let idSlice : VAtom :=
      match oldFields.find? (fun kv => kv.1 == "_id") with
      | some kv => kv.2
      | none => .nullV
    .object ([("_key", keySlice), ("_id", idSlice)] ++
      (if isEdgeCollection = true then
        [("_from", fromSlice.toAtom), ("_to", toSlice.toAtom)]
      else []) ++
      [("_rev", VAtom.strV rev)] ++ sanitizeObjectWithEdges newFields)
  | _, _ => .noneSlice

/-- TRI_collection_t::replace: identical control flow to update, but the
edge endpoints of the replacement are validated up front and the new object
is built by newObjectForReplace (the prior non-system attributes are
discarded) instead of the merge.  The restore-path revision selection and
the TRI_IF_FAILURE test hooks are omitted as in update. -/
def Collection.replace (c : Collection) (newSlice : VPack)
    (ignoreRevs : Bool) (newRevId : String)
    (isEdgeCollection isDBServer shardKeysChangedOracle : Bool)
    (walRes : Nat) : Collection × Nat × Option MPtr × VPack :=
  if newSlice.isObject = false then
    (c, TRI_ERROR_ARANGO_DOCUMENT_TYPE_INVALID, none, .noneSlice)
  else
    let fromSlice := newSlice.get "_from"
    let toSlice := newSlice.get "_to"
    if isEdgeCollection = true ∧ fromSlice.isString = false then
      (c, TRI_ERROR_ARANGO_INVALID_EDGE_ATTRIBUTE, none, .noneSlice)
    else if isEdgeCollection = true ∧ toSlice.isString = false then
      (c, TRI_ERROR_ARANGO_INVALID_EDGE_ATTRIBUTE, none, .noneSlice)
    else
      let key := newSlice.get "_key"
      if key.isNone = true then
        (c, TRI_ERROR_ARANGO_DOCUMENT_HANDLE_BAD, none, .noneSlice)
      else
        let look := c.lookupDocument key
        match look.2 with
        | none => (c, look.1, none, .noneSlice)
        | some oldHeader =>
          let prevRev := oldHeader.revSlice
          let revCheck :=
            if ignoreRevs = false then
              checkRevision (newSlice.get "_rev") prevRev
            else TRI_ERROR_NO_ERROR
          if revCheck ≠ TRI_ERROR_NO_ERROR then
            (c, revCheck, none, prevRev)
          else
            let replaced := newObjectForReplace oldHeader.vpack newSlice
              fromSlice toSlice isEdgeCollection newRevId
            if isDBServer = true ∧ shardKeysChangedOracle = true then
              (c, TRI_ERROR_CLUSTER_MUST_NOT_CHANGE_SHARDING_ATTRIBUTES, none,
               prevRev)
            else
              let u := c.updateDocument oldHeader replaced walRes
              (u.1, u.2.1, u.2.2, prevRev)

/-- TRI_collection_t::newObjectForRemove: the tombstone object consists of
_key and _rev, in this order; the key is the input itself when the input is
a bare string, else the input's _key attribute (which the source asserts is
a string; null stands for the asserted-impossible non-string case). -/
def newObjectForRemove (slice : VPack) (rid : String) : VPack :=
  let keyAtom : VAtom :=
    match (if slice.isString = true then slice else slice.get "_key") with
    | .str s => .strV s
    | _ => .nullV
  .object [("_key", keyAtom), ("_rev", VAtom.strV rid)]

/-- TRI_collection_t::remove.  The restore-path revision selection and the
TRI_IF_FAILURE test hooks are omitted as in update.  The revision check runs
only when revisions are not ignored and the input slice is an object; a bare
key string skips it.  The result is (state, error, prevRev). -/
def Collection.remove (c : Collection) (slice : VPack) (ignoreRevs : Bool)
    (newRevId : String) (walRes : Nat) : Collection × Nat × VPack :=
  let tombstone := newObjectForRemove slice newRevId
  let key := if slice.isString = true then slice else slice.get "_key"
  let look := c.lookupDocument key
  match look.2 with
  | none => (c, look.1, .noneSlice)
  | some oldHeader =>
    let prevRev := oldHeader.revSlice
    let revCheck :=
      if ignoreRevs = false ∧ slice.isObject = true then
        checkRevision (slice.get "_rev") prevRev
      else TRI_ERROR_NO_ERROR
    if revCheck ≠ TRI_ERROR_NO_ERROR then
      (c, revCheck, prevRev)
    else
      let d := c.deleteSecondaryIndexes oldHeader false
      if d.2 ≠ TRI_ERROR_NO_ERROR then
        let r := d.1.insertSecondaryIndexes oldHeader true
        (r.1, d.2, prevRev)
      else
        let q := d.1.deletePrimaryIndex oldHeader
        if q.2 ≠ TRI_ERROR_NO_ERROR then
          let r := q.1.insertSecondaryIndexes oldHeader true
          (r.1, q.2, prevRev)
        else
          let c1 := { q.1 with numberDocuments := q.1.numberDocuments - 1 }
          let w := addOperationTransaction c1 { vpack := tombstone, fid := 0 }
            walRes
          (w.1, w.2, prevRev)

/-! ## Timed lock acquisition (beginReadTimed / beginWriteTimed)

The reader/writer lock and the database-scope deadlock detector are external
collaborators of the embedded file; their per-iteration responses are
supplied as an environment list.  What is embedded from the source is the
polling loop itself: its registration, periodic deadlock check, cleanup and
timeout logic. -/

/-- Environment response for one iteration of the polling loop: the lock was
acquired, or it was busy and the detector call of this iteration (if any)
returns no deadlock, reports a deadlock, or throws. -/
inductive TryOutcome where
  | acquired : TryOutcome
  | busyOk : TryOutcome
  | busyDeadlock : TryOutcome
  | busyThrow : TryOutcome
deriving DecidableEq, Repr

/-- Modelled from the spec: the deadlock detector's per-thread bookkeeping
for one collection — whether the thread is registered as blocked, and
whether it is registered as an active reader/writer. -/
structure DetectorState where
  blocked : Bool
  active : Bool
deriving DecidableEq, Repr

/-- Modelled from the spec: DeadlockDetector::addReader / addWriter registers
the thread as active; when it had been marked blocked, the blocked
registration is converted (cleared). -/
def detectorAddActive (st : DetectorState) (wasBlocked : Bool) : DetectorState :=
  { st with active := true, blocked := if wasBlocked then false else st.blocked }

/-- Modelled from the spec: DeadlockDetector::setReaderBlocked /
setWriterBlocked marks the thread as blocked; when this immediately closes a
cycle it signals Deadlock and unregisters the thread again; when it throws,
the registration may already have been made (worst case modelled). -/
def detectorSetBlocked (st : DetectorState) (o : TryOutcome) :
    DetectorState × Nat :=
  match o with
  | .busyDeadlock => ({ st with blocked := false }, TRI_ERROR_DEADLOCK)
  | _ => ({ st with blocked := true }, TRI_ERROR_NO_ERROR)

/-- Modelled from the spec: DeadlockDetector::unsetReaderBlocked /
unsetWriterBlocked clears the blocked registration. -/
def detectorUnsetBlocked (st : DetectorState) : DetectorState :=
  { st with blocked := false }

/-- Result of a timed lock acquisition; pending means the environment list
was exhausted while the loop would still be polling. -/
inductive LockResult where
  | ok : LockResult
  | deadlock : LockResult
  | oom : LockResult
  | lockTimeout : LockResult
  | pending : LockResult
deriving DecidableEq, Repr

/-- One acquisition's outcome: the returned code, the detector bookkeeping
afterwards, and whether the lock is held. -/
structure LockOutcome where
  result : LockResult
  det : DetectorState
  lockHeld : Bool
deriving DecidableEq, Repr

/-- The polling loop of TRI_collection_t::beginReadTimed, translated
iteration by iteration: try the lock; on success register with the detector
(clearing any blocked mark) and return; otherwise mark blocked on the first
failed attempt (a deadlock signalled there returns immediately), evaluate
the wait-for graph every 5 further attempts (a deadlock unregisters and
returns), clean up on an exception; then sleep, accumulate the waited time
and return LockTimeout once it exceeds the timeout. -/
def beginReadTimedLoop (timeout sleepPeriod : Nat) :
    List TryOutcome → Nat → Nat → Bool → DetectorState → LockOutcome
  | [], _, _, _, st => { result := .pending, det := st, lockHeld := false }
  | o :: rest, waited, iterations, wasBlocked, st =>
    if o = .acquired then
      { result := .ok, det := detectorAddActive st wasBlocked, lockHeld := true }
    else if wasBlocked = false then
      let sb := detectorSetBlocked st o
      if sb.2 = TRI_ERROR_DEADLOCK then
        { result := .deadlock, det := sb.1, lockHeld := false }
      else if o = .busyThrow then
        { result := .oom, det := detectorUnsetBlocked sb.1, lockHeld := false }
      else if timeout < waited + sleepPeriod then
        { result := .lockTimeout, det := detectorUnsetBlocked sb.1,
          lockHeld := false }
      else
        beginReadTimedLoop timeout sleepPeriod rest (waited + sleepPeriod)
          iterations true sb.1
    else if 5 ≤ iterations + 1 then
      if o = .busyDeadlock then
        { result := .deadlock, det := detectorUnsetBlocked st,
          lockHeld := false }
      else if o = .busyThrow then
        { result := .oom, det := detectorUnsetBlocked st, lockHeld := false }
      else if timeout < waited + sleepPeriod then
        { result := .lockTimeout, det := detectorUnsetBlocked st,
          lockHeld := false }
      else
        beginReadTimedLoop timeout sleepPeriod rest (waited + sleepPeriod)
          0 wasBlocked st
    else if timeout < waited + sleepPeriod then
      { result := .lockTimeout, det := detectorUnsetBlocked st,
        lockHeld := false }
    else
      beginReadTimedLoop timeout sleepPeriod rest (waited + sleepPeriod)
        (iterations + 1) wasBlocked st

/-- TRI_collection_t::beginReadTimed: the no-lock override returns
immediately; a zero timeout is replaced by the 15-minute default; then the
polling loop runs. -/
def beginReadTimed (nolock : Bool) (env : List TryOutcome)
    (timeout sleepPeriod : Nat) (st : DetectorState) : LockOutcome :=
  if nolock = true then
    { result := .ok, det := st, lockHeld := false }
  else
    let timeout' := if timeout = 0 then 15 * 60 * 1000 * 1000 else timeout
    beginReadTimedLoop timeout' sleepPeriod env 0 0 false st

/-- The polling loop of TRI_collection_t::beginWriteTimed; identical control
flow to the read variant with the writer detector calls. -/
def beginWriteTimedLoop (timeout sleepPeriod : Nat) :
    List TryOutcome → Nat → Nat → Bool → DetectorState → LockOutcome
  | [], _, _, _, st => { result := .pending, det := st, lockHeld := false }
  | o :: rest, waited, iterations, wasBlocked, st =>
    if o = .acquired then
      { result := .ok, det := detectorAddActive st wasBlocked, lockHeld := true }
    else if wasBlocked = false then
      let sb := detectorSetBlocked st o
      if sb.2 = TRI_ERROR_DEADLOCK then
        { result := .deadlock, det := sb.1, lockHeld := false }
      else if o = .busyThrow then
        { result := .oom, det := detectorUnsetBlocked sb.1, lockHeld := false }
      else if timeout < waited + sleepPeriod then
        { result := .lockTimeout, det := detectorUnsetBlocked sb.1,
          lockHeld := false }
      else
        beginWriteTimedLoop timeout sleepPeriod rest (waited + sleepPeriod)
          iterations true sb.1
    else if 5 ≤ iterations + 1 then
      if o = .busyDeadlock then
        { result := .deadlock, det := detectorUnsetBlocked st,
          lockHeld := false }
      else if o = .busyThrow then
        { result := .oom, det := detectorUnsetBlocked st, lockHeld := false }
      else if timeout < waited + sleepPeriod then
        { result := .lockTimeout, det := detectorUnsetBlocked st,
          lockHeld := false }
      else
        beginWriteTimedLoop timeout sleepPeriod rest (waited + sleepPeriod)
          0 wasBlocked st
    else if timeout < waited + sleepPeriod then
      { result := .lockTimeout, det := detectorUnsetBlocked st,
        lockHeld := false }
    else
      beginWriteTimedLoop timeout sleepPeriod rest (waited + sleepPeriod)
        (iterations + 1) wasBlocked st

/-- TRI_collection_t::beginWriteTimed. -/
def beginWriteTimed (nolock : Bool) (env : List TryOutcome)
    (timeout sleepPeriod : Nat) (st : DetectorState) : LockOutcome :=
  if nolock = true then
    { result := .ok, det := st, lockHeld := false }
  else
    let timeout' := if timeout = 0 then 15 * 60 * 1000 * 1000 else timeout
    beginWriteTimedLoop timeout' sleepPeriod env 0 0 false st

/-! ## Index registry and path-index creation -/

inductive IndexType where
  | primaryIndexType : IndexType
  | edgeIndexType : IndexType
  | hashIndexType : IndexType
  | skiplistIndexType : IndexType
  | fulltextIndexType : IndexType
  | geoIndexType : IndexType
deriving DecidableEq, Repr

/-- A path-based index descriptor: type, uniqueness, sparsity and the list
of attribute paths (each path a list of attribute-name components). -/
structure PathIndex where
  iid : Nat
  idxType : IndexType
  unique : Bool
  sparse : Bool
  fields : List (List String)
deriving DecidableEq, Repr

/-- Index::isPersistent: none of the index kinds available in this build
(no RocksDB) is persistent-backed. -/
def PathIndex.isPersistent (_idx : PathIndex) : Bool := false

/-- Comparison of the first m components of two attribute paths, the inner
loop of the field-matching checks. -/
def pathEqUpTo (xs ys : List String) (m : Nat) : Bool :=
  decide (∀ k, k < m → xs.getD k "" = ys.getD k "")

/-- One step of the any-permutation field check of
LookupPathIndexDocumentCollection: for position i, some position j carries a
path whose length equals that of field i and whose components agree
(the source compares idxFields[j] with paths[j]). -/
def anyOrderFoundAt (idxFields paths : List (List String)) (i : Nat) : Bool :=
  let fieldSize := (idxFields.getD i []).length
  (List.range idxFields.length).any (fun j =>
    (paths.getD j []).length = fieldSize &&
      pathEqUpTo (idxFields.getD j []) (paths.getD j []) fieldSize)

/-- The any-permutation branch of LookupPathIndexDocumentCollection. -/
def anyOrderMatch (idxFields paths : List (List String)) : Bool :=
  (List.range idxFields.length).all (fun i => anyOrderFoundAt idxFields paths i)

/-- The in-order branch of LookupPathIndexDocumentCollection: attributes
must be present in the given order. -/
def orderedMatch (idxFields paths : List (List String)) : Bool :=
  (List.range idxFields.length).all (fun i =>
    (paths.getD i []).length = (idxFields.getD i []).length &&
      pathEqUpTo (idxFields.getD i []) (paths.getD i [])
        ((idxFields.getD i []).length))

/-- Per-index matching logic of LookupPathIndexDocumentCollection: the type
must agree; hash and skiplist indexes additionally compare uniqueness and
(when requested) sparsity, then the field count and the fields themselves;
all other index types never match. -/
def pathIndexMatches (idx : PathIndex) (paths : List (List String))
    (type : IndexType) (sparsity : Int) (unique allowAnyAttributeOrder : Bool) :
    Bool :=
  if idx.idxType ≠ type then false
  else
    match idx.idxType with
    | .hashIndexType =>
      if unique ≠ idx.unique ∨
          (sparsity ≠ -1 ∧ sparsity ≠ (if idx.sparse then 1 else 0)) then false
      else if idx.fields.length ≠ paths.length then false
      else if allowAnyAttributeOrder then anyOrderMatch idx.fields paths
      else orderedMatch idx.fields paths
    | .skiplistIndexType =>
      if unique ≠ idx.unique ∨
          (sparsity ≠ -1 ∧ sparsity ≠ (if idx.sparse then 1 else 0)) then false
      else if idx.fields.length ≠ paths.length then false
      else if allowAnyAttributeOrder then anyOrderMatch idx.fields paths
      else orderedMatch idx.fields paths
    | _ => false

/-- LookupPathIndexDocumentCollection: first index of the collection
matching the requested type, flags and field paths. -/
def lookupPathIndexDocumentCollection (indexes : List PathIndex)
    (paths : List (List String)) (type : IndexType) (sparsity : Int)
    (unique allowAnyAttributeOrder : Bool) : Option PathIndex :=
  indexes.find? (fun idx =>
    pathIndexMatches idx paths type sparsity unique allowAnyAttributeOrder)

/-- Lexicographic byte-wise comparison of character lists, the order
std::sort uses on std::string (structurally computable). -/
def charListLe : List Char → List Char → Bool
  | [], _ => true
  | _ :: _, [] => false
  | c :: cs, d :: ds =>
    if c.toNat < d.toNat then true
    else if d.toNat < c.toNat then false
    else charListLe cs ds

/-- Lexicographic comparison of strings. -/
def stringLe (a b : String) : Bool := charListLe a.data b.data

/-- NamesByAttributeNames: for a hash index the attribute list is sorted
first, so that an index on two attributes in either order normalizes to the
same field list.  Attribute parsing (TRI_ParseAttributeString) is modelled
for simple attribute names: each becomes a one-component path. -/
def namesByAttributeNames (attributes : List String) (isHashIndex : Bool) :
    List (List String) :=
  let copy :=
    if isHashIndex then
      List.insertionSort (fun a b => stringLe a b = true) attributes
    else attributes
  copy.map (fun name => [name])

/-- TRI_collection_t index registry state: the ordered index list (slot 0 is
the primary index) plus the incrementally maintained counters. -/
structure IndexRegistry where
  indexes : List PathIndex
  cleanupIndexes : Nat
  persistentIndexes : Nat
deriving DecidableEq, Repr

/-- TRI_collection_t::addIndex: appends the index and updates the cleanup /
persistent counters incrementally. -/
def IndexRegistry.addIndex (reg : IndexRegistry) (idx : PathIndex) :
    IndexRegistry :=
  { reg with
    indexes := reg.indexes ++ [idx],
    cleanupIndexes :=
      if idx.idxType = .fulltextIndexType then reg.cleanupIndexes + 1
      else reg.cleanupIndexes,
    persistentIndexes :=
      if idx.isPersistent then reg.persistentIndexes + 1
      else reg.persistentIndexes }

/-- CreateHashIndexDocumentCollection: looks for an existing hash index over
the normalized (sorted) fields with the same uniqueness and sparsity; when
found it is returned with created = false; otherwise a fresh index is
populated (fillIndexRes is the environment-chosen population result; failure
leaves the registry untouched) and registered. -/
def createHashIndexDocumentCollection (reg : IndexRegistry)
    (attributes : List String) (iid : Nat) (sparse unique : Bool)
    (fillIndexRes : Nat) : IndexRegistry × Option PathIndex × Bool :=
  let fields := namesByAttributeNames attributes true
  let sparsity : Int := if sparse then 1 else 0
  match lookupPathIndexDocumentCollection reg.indexes fields .hashIndexType
      sparsity unique false with
  | some idx => (reg, some idx, false)
  | none =>
    let newIdx : PathIndex :=
      { iid := iid, idxType := .hashIndexType, unique := unique,
        sparse := sparse, fields := fields }
    if fillIndexRes ≠ TRI_ERROR_NO_ERROR then
      (reg, none, false)
    else
      (reg.addIndex newIdx, some newIdx, true)

/-- CreateSkiplistIndexDocumentCollection: as for the hash index but without
attribute sorting (field order is significant). -/
def createSkiplistIndexDocumentCollection (reg : IndexRegistry)
    (attributes : List String) (iid : Nat) (sparse unique : Bool)
    (fillIndexRes : Nat) : IndexRegistry × Option PathIndex × Bool :=
  let fields := namesByAttributeNames attributes false
  let sparsity : Int := if sparse then 1 else 0
  match lookupPathIndexDocumentCollection reg.indexes fields
      .skiplistIndexType sparsity unique false with
  | some idx => (reg, some idx, false)
  | none =>
    let newIdx : PathIndex :=
      { iid := iid, idxType := .skiplistIndexType, unique := unique,
        sparse := sparse, fields := fields }
    if fillIndexRes ≠ TRI_ERROR_NO_ERROR then
      (reg, none, false)
    else
      (reg.addIndex newIdx, some newIdx, true)

/-! ## Recovery replay (collection open) -/

/-- Datafile statistics container (DatafileStatisticsContainer). -/
structure DfStats where
  numberAlive : Int
  numberDead : Int
  sizeAlive : Int
  sizeDead : Int
  numberDeletions : Nat
deriving DecidableEq, Repr

def emptyDfStats : DfStats :=
  { numberAlive := 0, numberDead := 0, sizeAlive := 0, sizeDead := 0,
    numberDeletions := 0 }

/-- A persisted marker as the open iterator sees it: key, numeric revision,
datafile id and aligned size. -/
structure OpenMarker where
  key : String
  rev : Nat
  fid : Nat
  size : Int
deriving DecidableEq, Repr

inductive OpenMarkerKind where
  | document : OpenMarkerKind
  | deletion : OpenMarkerKind
deriving DecidableEq, Repr

/-- A document handle during recovery: the key and revision of the marker it
points at, the datafile id and the marker size. -/
structure RMPtr where
  key : String
  rev : Nat
  fid : Nat
  size : Int
deriving DecidableEq, Repr

/-- OpenIteratorState plus the collection state the open iterator mutates:
the primary index being built, the live document counter and the revision
high-water mark. -/
structure OpenIteratorState where
  primary : List RMPtr
  numberDocuments : Nat
  revision : Nat
  fid : Nat
  stats : List (Nat × DfStats)
  deletions : Nat
  documents : Nat
deriving DecidableEq, Repr

def emptyOpenState : OpenIteratorState :=
  { primary := [], numberDocuments := 0, revision := 0, fid := 0,
    stats := [], deletions := 0, documents := 0 }

/-- TRI_collection_t::setLastRevision together with
VocbaseCollectionInfo::setRevision: a positive revision advances the stored
revision when forced or larger. -/
def setLastRevisionSt (st : OpenIteratorState) (rid : Nat) (force : Bool) :
    OpenIteratorState :=
  if 0 < rid then
    if force = true ∨ st.revision < rid then { st with revision := rid }
    else st
  else st

/-- FindDatafileStats: returns the statistics map with a container for the
datafile present (created empty when absent). -/
def findDatafileStats (stats : List (Nat × DfStats)) (fid : Nat) :
    List (Nat × DfStats) :=
  match stats.find? (fun kv => kv.1 == fid) with
  | some _ => stats
  | none => (fid, emptyDfStats) :: stats

/-- Applies an update to the statistics container of one datafile. -/
def updateDfStats (stats : List (Nat × DfStats)) (fid : Nat)
    (f : DfStats → DfStats) : List (Nat × DfStats) :=
  (findDatafileStats stats fid).map
    (fun kv => if kv.1 = fid then (kv.1, f kv.2) else kv)

/-- Reads the deletion statistic recorded for one datafile. -/
def statDeletions (stats : List (Nat × DfStats)) (fid : Nat) : Nat :=
  match stats.find? (fun kv => kv.1 == fid) with
  | some kv => kv.2.numberDeletions
  | none => 0

/-- OpenIteratorHandleDocumentMarker: advance the revision high-water mark,
count the marker, switch the current-datafile statistics; a key not yet in
the being-built primary index allocates a handle, inserts it and bumps the
live counter and alive statistics; a key already present repoints the
existing handle at the new marker and moves the old marker's accounting
from alive to dead. -/
def openIteratorHandleDocumentMarker (st0 : OpenIteratorState)
    (m : OpenMarker) : OpenIteratorState × Nat :=
  let st1 := setLastRevisionSt st0 m.rev false
  let st2 := { st1 with documents := st1.documents + 1 }
  let st3 :=
    if st2.fid ≠ m.fid then
      { st2 with fid := m.fid, stats := findDatafileStats st2.stats m.fid }
    else st2
  match st3.primary.find? (fun h => h.key == m.key) with
  | none =>
    let header : RMPtr := { key := m.key, rev := m.rev, fid := m.fid,
                            size := m.size }
    let st4 := { st3 with
      primary := header :: st3.primary,
      numberDocuments := st3.numberDocuments + 1,
      stats := updateDfStats st3.stats m.fid (fun d =>
        { d with numberAlive := d.numberAlive + 1,
                 sizeAlive := d.sizeAlive + m.size }) }
    (st4, TRI_ERROR_NO_ERROR)
  | some found =>
    let newHeader : RMPtr :=
      { key := found.key, rev := m.rev, fid := m.fid, size := m.size }
    let st4 := { st3 with
      primary := st3.primary.map (fun (h : RMPtr) =>
        if h.key == m.key then newHeader else h) }
    let st5 := { st4 with
      stats := updateDfStats st4.stats found.fid (fun d =>
        { d with numberAlive := d.numberAlive - 1,
                 sizeAlive := d.sizeAlive - found.size,
                 numberDead := d.numberDead + 1,
                 sizeDead := d.sizeDead + found.size }) }
    let st6 := { st5 with
      stats := updateDfStats st5.stats m.fid (fun d =>
        { d with numberAlive := d.numberAlive + 1,
                 sizeAlive := d.sizeAlive + m.size }) }
    (st6, TRI_ERROR_NO_ERROR)

/-- OpenIteratorHandleDeletionMarker: advance the revision high-water mark,
count the deletion, switch the current-datafile statistics; a key absent
from the primary index records a deletion-of-unseen-document statistic and
is otherwise skipped; a present key moves its accounting to dead, records
the deletion, removes the primary entry and decrements the live counter. -/
def openIteratorHandleDeletionMarker (st0 : OpenIteratorState)
    (m : OpenMarker) : OpenIteratorState × Nat :=
  let st1 := setLastRevisionSt st0 m.rev false
  let st2 := { st1 with deletions := st1.deletions + 1 }
  let st3 :=
    if st2.fid ≠ m.fid then
      { st2 with fid := m.fid, stats := findDatafileStats st2.stats m.fid }
    else st2
  match st3.primary.find? (fun h => h.key == m.key) with
  | none =>
    let st4 := { st3 with
      stats := updateDfStats st3.stats m.fid (fun d =>
        { d with numberDeletions := d.numberDeletions + 1 }) }
    (st4, TRI_ERROR_NO_ERROR)
  | some found =>
    let st4 := { st3 with
      stats := updateDfStats st3.stats found.fid (fun d =>
        { d with numberAlive := d.numberAlive - 1,
                 sizeAlive := d.sizeAlive - found.size,
                 numberDead := d.numberDead + 1,
                 sizeDead := d.sizeDead + found.size }) }
    let st5 := { st4 with
      stats := updateDfStats st4.stats m.fid (fun d =>
        { d with numberDeletions := d.numberDeletions + 1 }) }
    let st6 := { st5 with
      primary := st5.primary.filter (fun h => h.key != m.key),
      numberDocuments := st5.numberDocuments - 1 }
    (st6, TRI_ERROR_NO_ERROR)

/-- OpenIterator: dispatch on the marker kind. -/
def openIteratorStep (st : OpenIteratorState)
    (m : OpenMarkerKind × OpenMarker) : OpenIteratorState :=
  match m.1 with
  | .document => (openIteratorHandleDocumentMarker st m.2).1
  | .deletion => (openIteratorHandleDeletionMarker st m.2).1

/-- Replay of a persisted marker sequence in tick order. -/
def replayMarkers (st : OpenIteratorState)
    (ms : List (OpenMarkerKind × OpenMarker)) : OpenIteratorState :=
  ms.foldl openIteratorStep st

/-! ## Derived definitions used by the statements -/

/-- The return-code bookkeeping of one iteration of insertSecondaryIndexes,
folded over the per-index results. -/
def applyPolicy (result res : Nat) : Nat :=
  if res ≠ TRI_ERROR_NO_ERROR then
    if res = TRI_ERROR_ARANGO_UNIQUE_CONSTRAINT_VIOLATED ∨
        result = TRI_ERROR_NO_ERROR then res
    else result
  else result

/-- The error policy of insertSecondaryIndexes in the words of the claim: a
unique-constraint violation is preferred over any other error; otherwise the
first failure is returned. -/
def preferredSecondaryError (results : List Nat) : Nat :=
  if TRI_ERROR_ARANGO_UNIQUE_CONSTRAINT_VIOLATED ∈ results then
    TRI_ERROR_ARANGO_UNIQUE_CONSTRAINT_VIOLATED
  else
    (results.find? (fun r => r != TRI_ERROR_NO_ERROR)).getD TRI_ERROR_NO_ERROR

/-! ## Concrete fixtures used by witnesses and counterexamples -/

/-- A stored document with key k at revision 1. -/
def sampleDoc : MPtr :=
  { vpack := .object [("_key", .strV "k"), ("_rev", .strV "1")], fid := 0 }

/-- A collection holding sampleDoc and no secondary indexes. -/
def sampleColl : Collection :=
  { primary := [sampleDoc], secondaries := [], useSecIdx := true,
    persistentIndexes := 0, numberDocuments := 1, walOps := [] }

/-- An update delta carrying only system attributes (the key and the
expected revision). -/
def sampleSystemOnlyDelta : VPack :=
  .object [("_key", .strV "k"), ("_rev", .strV "1")]

/-- A fresh document with key n used for insert witnesses. -/
def sampleNewDoc : MPtr :=
  { vpack := .object [("_key", .strV "n"), ("_rev", .strV "7")], fid := 0 }

/-- A secondary index whose insert always fails with error code 1234. -/
def sampleFailingIdx : SecIndex :=
  { entries := [], isPersistent := false,
    insertRes := fun _ _ => 1234, removeRes := fun _ _ => TRI_ERROR_NO_ERROR }

/-- A secondary index whose insert always reports a unique-constraint
violation. -/
def sampleUcvIdx : SecIndex :=
  { entries := [], isPersistent := false,
    insertRes := fun _ _ => TRI_ERROR_ARANGO_UNIQUE_CONSTRAINT_VIOLATED,
    removeRes := fun _ _ => TRI_ERROR_NO_ERROR }

/-- A secondary index whose operations always succeed. -/
def sampleOkIdx : SecIndex :=
  { entries := [], isPersistent := false,
    insertRes := fun _ _ => TRI_ERROR_NO_ERROR,
    removeRes := fun _ _ => TRI_ERROR_NO_ERROR }

/-- sampleColl with a failing and an always-succeeding secondary index. -/
def sampleCollFail : Collection :=
  { sampleColl with secondaries := [sampleFailingIdx, sampleOkIdx] }

/-- sampleColl with a generic-failure, a unique-constraint-violating and an
always-succeeding secondary index. -/
def sampleCollPolicy : Collection :=
  { sampleColl with secondaries := [sampleFailingIdx, sampleUcvIdx, sampleOkIdx] }

/-- sampleColl with one succeeding secondary index holding sampleDoc. -/
def sampleCollSec : Collection :=
  { sampleColl with secondaries := [{ sampleOkIdx with entries := [sampleDoc] }] }

/-- An index registry holding only the primary index. -/
def sampleRegistry : IndexRegistry :=
  { indexes := [{ iid := 0, idxType := .primaryIndexType, unique := true,
                  sparse := false, fields := [["_key"]] }],
    cleanupIndexes := 0, persistentIndexes := 0 }

/-! # Theorems -/

theorem SecIndex.insert_snd (idx : SecIndex) (h : MPtr) (b : Bool) :
    (idx.insert h b).2 = idx.insertRes h b := by
  unfold SecIndex.insert
  dsimp only
  split <;> rfl

theorem VPack.isString_isObject_false (s : VPack) (hs : s.isString = true) :
    s.isObject = false := by
  cases s <;> simp_all [VPack.isString, VPack.isObject]

/-- C2: for every insert of a document whose key already exists in the
primary index, the operation returns the unique-constraint-violated
(duplicate-key) error and the collection state — document count, primary
index and all secondary indexes — is unchanged: the failed insert is a
no-op. -/
theorem insertDocument_duplicate_key_noop (c : Collection) (h : MPtr)
    (walRes : Nat) (f : MPtr) (hdup : lookupKey c.primary h.keySlice = some f) :
    c.insertDocument h walRes =
      (c, TRI_ERROR_ARANGO_UNIQUE_CONSTRAINT_VIOLATED, none) := by
  unfold Collection.insertDocument Collection.insertPrimaryIndex
    primaryInsertKey
  rw [hdup]
  simp [TRI_ERROR_NO_ERROR, TRI_ERROR_ARANGO_UNIQUE_CONSTRAINT_VIOLATED]

/-- Witness for C2: the duplicate insert of key k into the sample collection
is rejected and changes nothing. -/
theorem insertDocument_duplicate_key_noop_witness :
    sampleColl.insertDocument
        { vpack := .object [("_key", .strV "k"), ("_rev", .strV "5")], fid := 0 }
        TRI_ERROR_NO_ERROR =
      (sampleColl, TRI_ERROR_ARANGO_UNIQUE_CONSTRAINT_VIOLATED, none) :=
  insertDocument_duplicate_key_noop sampleColl
    { vpack := .object [("_key", .strV "k"), ("_rev", .strV "5")], fid := 0 }
    TRI_ERROR_NO_ERROR sampleDoc (by decide)

/-- C3: every update or replace with revision checking enabled whose
supplied expected revision differs from the stored document's current
revision fails with Conflict and leaves the collection — stored document,
indexes, counter — unchanged.  For replace the edge-endpoint guard must
pass first (for an edge collection the supplied _from and _to are strings);
update has no such guard. -/
theorem update_replace_revision_mismatch_conflict :
    (∀ (c : Collection) (newSlice : VPack) (mo kn : Bool) (newRevId : String)
        (edge dbs sk : Bool) (walRes : Nat) (k : String) (h : MPtr),
      newSlice.isObject = true →
      newSlice.get "_key" = .str k →
      lookupKey c.primary (.str k) = some h →
      (newSlice.get "_rev").isNone = false →
      newSlice.get "_rev" ≠ h.revSlice →
      c.update newSlice false mo kn newRevId edge dbs sk walRes =
        (c, TRI_ERROR_ARANGO_CONFLICT, none, h.revSlice)) ∧
    (∀ (c : Collection) (newSlice : VPack) (newRevId : String)
        (edge dbs sk : Bool) (walRes : Nat) (k : String) (h : MPtr),
      newSlice.isObject = true →
      (edge = true → (newSlice.get "_from").isString = true ∧
        (newSlice.get "_to").isString = true) →
      newSlice.get "_key" = .str k →
      lookupKey c.primary (.str k) = some h →
      (newSlice.get "_rev").isNone = false →
      newSlice.get "_rev" ≠ h.revSlice →
      c.replace newSlice false newRevId edge dbs sk walRes =
        (c, TRI_ERROR_ARANGO_CONFLICT, none, h.revSlice)) := by
  constructor
  · intro c newSlice mo kn newRevId edge dbs sk walRes k h hobj hkey hlook
      hrne hmm
    unfold Collection.update Collection.lookupDocument
    rw [hobj, hkey]
    simp only [VPack.isNone, VPack.isString]
    rw [hlook]
    unfold checkRevision
    rw [hrne]
    have hne : h.revSlice ≠ newSlice.get "_rev" :=
      fun hcontra => hmm hcontra.symm
    simp [hne, TRI_ERROR_ARANGO_CONFLICT, TRI_ERROR_NO_ERROR]
  · intro c newSlice newRevId edge dbs sk walRes k h hobj hedge hkey hlook
      hrne hmm
    have hne : h.revSlice ≠ newSlice.get "_rev" :=
      fun hcontra => hmm hcontra.symm
    unfold Collection.replace Collection.lookupDocument
    rw [hobj, hkey]
    dsimp only
    cases edge with
    | false =>
      simp only [VPack.isNone, VPack.isString]
      rw [hlook]
      unfold checkRevision
      rw [hrne]
      simp [hne, TRI_ERROR_ARANGO_CONFLICT, TRI_ERROR_NO_ERROR]
    | true =>
      rcases hedge rfl with ⟨hf2, ht2⟩
      rw [hf2, ht2]
      simp only [VPack.isNone, VPack.isString]
      rw [hlook]
      unfold checkRevision
      rw [hrne]
      simp [hne, TRI_ERROR_ARANGO_CONFLICT, TRI_ERROR_NO_ERROR]

/-- Witness for C3: updating, and replacing, the sample document with
expected revision 9 (current revision 1) conflicts and is a no-op. -/
theorem update_replace_revision_mismatch_conflict_witness :
    sampleColl.update (.object [("_key", .strV "k"), ("_rev", .strV "9")])
        false false false "2" false false false TRI_ERROR_NO_ERROR =
      (sampleColl, TRI_ERROR_ARANGO_CONFLICT, none, sampleDoc.revSlice) ∧
    sampleColl.replace (.object [("_key", .strV "k"), ("_rev", .strV "9")])
        false "2" false false false TRI_ERROR_NO_ERROR =
      (sampleColl, TRI_ERROR_ARANGO_CONFLICT, none, sampleDoc.revSlice) :=
  ⟨update_replace_revision_mismatch_conflict.1 sampleColl
    (.object [("_key", .strV "k"), ("_rev", .strV "9")]) false false "2"
    false false false TRI_ERROR_NO_ERROR "k" sampleDoc (by decide) (by decide)
    (by decide) (by decide) (by decide),
   update_replace_revision_mismatch_conflict.2 sampleColl
    (.object [("_key", .strV "k"), ("_rev", .strV "9")]) "2" false false
    false TRI_ERROR_NO_ERROR "k" sampleDoc (by decide)
    (fun he => absurd he (by decide)) (by decide) (by decide) (by decide)
    (by decide)⟩

/-- Counterexample to C4 as stated: an update whose delta carries only
system attributes (the key and the matching expected revision — no
non-system attributes at all) is not a no-op: it succeeds, but a new
operation record is written and the stored document's revision changes. -/
theorem update_system_only_delta_not_noop :
    (∀ kv ∈ [("_key", VAtom.strV "k"), ("_rev", VAtom.strV "1")],
        isSystemAttribute kv.1 = true) ∧
    sampleSystemOnlyDelta = .object [("_key", .strV "k"), ("_rev", .strV "1")] ∧
    (sampleColl.update sampleSystemOnlyDelta false false false "2" false
        false false TRI_ERROR_NO_ERROR).2.1 = TRI_ERROR_NO_ERROR ∧
    (sampleColl.update sampleSystemOnlyDelta false false false "2" false
        false false TRI_ERROR_NO_ERROR).1.walOps ≠ sampleColl.walOps ∧
    (lookupKey (sampleColl.update sampleSystemOnlyDelta false false false "2"
        false false false TRI_ERROR_NO_ERROR).1.primary (.str "k")).map
        MPtr.revSlice ≠
      some sampleDoc.revSlice := by
  decide

/-- C4 as amended: an update whose delta contains at most one attribute
(necessarily the mandatory key, so in particular no expected revision and no
non-system attributes) is a no-op: it returns success with the unchanged
current version of the document, writes no new marker and assigns no new
revision. -/
theorem update_key_only_delta_noop (c : Collection) (k : String) (h : MPtr)
    (ignoreRevs mo kn : Bool) (newRevId : String) (edge dbs sk : Bool)
    (walRes : Nat)
    (hlook : lookupKey c.primary (.str k) = some h) :
    c.update (.object [("_key", .strV k)]) ignoreRevs mo kn newRevId edge dbs
        sk walRes =
      (c, TRI_ERROR_NO_ERROR, some h, h.revSlice) := by
  unfold Collection.update Collection.lookupDocument
  simp only [VPack.isObject, VPack.get, VPack.getField, VPack.isNone,
    VPack.isString, VAtom.toSlice]
  simp only [reduceIte]
  rw [hlook]
  cases ignoreRevs <;>
    simp [checkRevision, VPack.isNone, VPack.length, TRI_ERROR_NO_ERROR]

/-- Witness for the amended C4 at the sample collection. -/
theorem update_key_only_delta_noop_witness :
    sampleColl.update (.object [("_key", .strV "k")]) false false false "2"
        false false false TRI_ERROR_NO_ERROR =
      (sampleColl, TRI_ERROR_NO_ERROR, some sampleDoc, sampleDoc.revSlice) :=
  update_key_only_delta_noop sampleColl "k" sampleDoc false false false "2"
    false false false TRI_ERROR_NO_ERROR (by decide)

/-! ## Rollback lemmas for insert (C1) -/

theorem filter_bne_of_not_mem (h : MPtr) (l : List MPtr) (hnm : h ∉ l) :
    l.filter (fun e => e != h) = l := by
  induction l with
  | nil => rfl
  | cons a rest ih =>
    have hane : a ≠ h := by
      intro hcontra
      exact hnm (hcontra ▸ List.mem_cons_self a rest)
    have hrest : h ∉ rest := fun hc => hnm (List.mem_cons_of_mem a hc)
    have hbne : (a != h) = true := by simp [hane]
    simp [List.filter, hbne, ih hrest]

theorem deleteSecLoop_fresh_id (u : Bool) (h : MPtr) (b : Bool)
    (secs : List SecIndex) (r : Nat)
    (hfresh : ∀ idx ∈ secs, h ∉ idx.entries) :
    (deleteSecLoop u h b secs r).1 = secs := by
  induction secs generalizing r with
  | nil => rfl
  | cons idx rest ih =>
    have hidx : h ∉ idx.entries := hfresh idx (List.mem_cons_self idx rest)
    have hrest : ∀ j ∈ rest, h ∉ j.entries :=
      fun j hj => hfresh j (List.mem_cons_of_mem idx hj)
    unfold deleteSecLoop
    dsimp only
    split
    · simp [ih _ hrest]
    · simp [SecIndex.remove, filter_bne_of_not_mem h idx.entries hidx,
        ih _ hrest]

theorem deleteSecLoop_undoes_insertSecLoop (u : Bool) (h : MPtr)
    (secs : List SecIndex) (r r' : Nat)
    (hfresh : ∀ idx ∈ secs, h ∉ idx.entries) :
    (deleteSecLoop u h true (insertSecLoop u h false secs r).1 r').1 = secs := by
  induction secs generalizing r r' with
  | nil => rfl
  | cons idx rest ih =>
    have hidx : h ∉ idx.entries := hfresh idx (List.mem_cons_self idx rest)
    have hrest : ∀ j ∈ rest, h ∉ j.entries :=
      fun j hj => hfresh j (List.mem_cons_of_mem idx hj)
    unfold insertSecLoop
    dsimp only
    split
    · -- skipped by the insert loop: the delete loop skips it too
      rename_i hskip
      unfold deleteSecLoop
      dsimp only
      rw [if_pos hskip]
      simp [ih r r' hrest]
    · rename_i hskip
      by_cases hoom :
          (idx.insert h false).2 = TRI_ERROR_OUT_OF_MEMORY
      · -- immediate abort: nothing later was inserted
        rw [if_pos hoom]
        have hins : (idx.insert h false).1 = idx := by
          unfold SecIndex.insert
          dsimp only
          rw [SecIndex.insert_snd] at hoom
          simp [hoom, TRI_ERROR_OUT_OF_MEMORY, TRI_ERROR_NO_ERROR]
        rw [hins]
        exact deleteSecLoop_fresh_id u h true (idx :: rest) r' hfresh
      · rw [if_neg hoom]
        by_cases hok : idx.insertRes h false = TRI_ERROR_NO_ERROR
        · -- the insert succeeded: the rollback removal restores the entries
          have hins : (idx.insert h false).1 =
              { idx with entries := h :: idx.entries } := by
            unfold SecIndex.insert
            dsimp only
            simp [hok]
          rw [hins]
          unfold deleteSecLoop
          dsimp only
          rw [if_neg hskip]
          have hfil : (h :: idx.entries).filter (fun e => e != h) =
              idx.entries := by
            have hself : (h != h) = false := by simp
            simp [List.filter, hself,
              filter_bne_of_not_mem h idx.entries hidx]
          simp [SecIndex.remove, hfil, ih _ _ hrest]
        · -- the insert failed: the index is unchanged and the rollback
          -- removal is the identity
          have hins : (idx.insert h false).1 = idx := by
            unfold SecIndex.insert
            dsimp only
            simp [hok]
          rw [hins]
          unfold deleteSecLoop
          dsimp only
          rw [if_neg hskip]
          simp [SecIndex.remove, filter_bne_of_not_mem h idx.entries hidx,
            ih _ _ hrest]

theorem lookupKey_none_all_bne (l : List MPtr) (k : VPack)
    (hnone : lookupKey l k = none) :
    ∀ e ∈ l, (e.keySlice == k) = false := by
  intro e he
  have := List.find?_eq_none.mp hnone e he
  simpa using this

theorem filter_keySlice_of_lookup_none (l : List MPtr) (k : VPack)
    (hnone : lookupKey l k = none) :
    l.filter (fun e => e.keySlice != k) = l := by
  apply List.filter_eq_self.mpr
  intro e he
  have hb := lookupKey_none_all_bne l k hnone e he
  simp [bne, hb]

/-- C1: for every insert in which the secondary-index step fails, all
secondary-index insertions already performed for the operation are rolled
back, the primary-index entry for the key is removed, the live document
counter equals its value before the operation, and the original
secondary-index error is returned: the final state equals the initial one. -/
theorem insertDocument_secondary_failure_unwinds (c : Collection) (h : MPtr)
    (walRes : Nat) (e : Nat)
    (hkey : lookupKey c.primary h.keySlice = none)
    (hfresh : ∀ idx ∈ c.secondaries, h ∉ idx.entries)
    (hfail : (Collection.insertSecondaryIndexes
        { c with primary := h :: c.primary } h false).2 = e)
    (hne : e ≠ TRI_ERROR_NO_ERROR) :
    c.insertDocument h walRes = (c, e, none) := by
  have hp : c.insertPrimaryIndex h =
      ({ c with primary := h :: c.primary }, TRI_ERROR_NO_ERROR) := by
    unfold Collection.insertPrimaryIndex primaryInsertKey
    rw [hkey]
    simp
  by_cases hguard : c.useSecIdx = false ∧ c.persistentIndexes = 0
  · exfalso
    apply hne
    rw [← hfail]
    unfold Collection.insertSecondaryIndexes
    rw [if_pos hguard]
  · have hs : Collection.insertSecondaryIndexes
        { c with primary := h :: c.primary } h false =
        ({ c with
            primary := h :: c.primary,
            secondaries := (insertSecLoop c.useSecIdx h false c.secondaries
              TRI_ERROR_NO_ERROR).1 },
         (insertSecLoop c.useSecIdx h false c.secondaries
           TRI_ERROR_NO_ERROR).2) := by
      unfold Collection.insertSecondaryIndexes
      rw [if_neg hguard]
    have hsval : (insertSecLoop c.useSecIdx h false c.secondaries
        TRI_ERROR_NO_ERROR).2 = e := by
      rw [hs] at hfail
      exact hfail
    have hdel : Collection.deleteSecondaryIndexes
        { c with
            primary := h :: c.primary,
            secondaries := (insertSecLoop c.useSecIdx h false c.secondaries
              TRI_ERROR_NO_ERROR).1 } h true =
        ({ c with primary := h :: c.primary },
         (deleteSecLoop c.useSecIdx h true
           (insertSecLoop c.useSecIdx h false c.secondaries
             TRI_ERROR_NO_ERROR).1 TRI_ERROR_NO_ERROR).2) := by
      unfold Collection.deleteSecondaryIndexes
      rw [if_neg hguard]
      dsimp only
      rw [deleteSecLoop_undoes_insertSecLoop c.useSecIdx h c.secondaries
        TRI_ERROR_NO_ERROR TRI_ERROR_NO_ERROR hfresh]
    have hq : Collection.deletePrimaryIndex
        { c with primary := h :: c.primary } h = (c, TRI_ERROR_NO_ERROR) := by
      unfold Collection.deletePrimaryIndex primaryRemoveKey lookupKey
      have hhead : (h.keySlice == h.keySlice) = true := by simp
      have hhead' : (h.keySlice != h.keySlice) = false := by simp
      simp only [List.find?, hhead]
      simp only [List.filter, hhead',
        filter_keySlice_of_lookup_none c.primary h.keySlice hkey]
    unfold Collection.insertDocument
    rw [hp]
    simp only [ne_eq, not_true_eq_false, if_false, reduceIte]
    rw [hs]
    simp only [hsval]
    rw [if_pos hne]
    rw [hdel]
    dsimp only
    rw [hq]

/-- Witness for C1: a secondary index rejecting the new document with error
1234 makes the insert fail with 1234 and leave the collection unchanged. -/
theorem insertDocument_secondary_failure_unwinds_witness :
    sampleCollFail.insertDocument sampleNewDoc TRI_ERROR_NO_ERROR =
      (sampleCollFail, 1234, none) :=
  insertDocument_secondary_failure_unwinds sampleCollFail sampleNewDoc
    TRI_ERROR_NO_ERROR 1234 (by decide) (by decide) (by rfl) (by decide)

/-! ## Error-policy lemmas for insertSecondaryIndexes (C9) -/

theorem applyPolicy_ucv_absorbs (results : List Nat) :
    results.foldl applyPolicy TRI_ERROR_ARANGO_UNIQUE_CONSTRAINT_VIOLATED =
      TRI_ERROR_ARANGO_UNIQUE_CONSTRAINT_VIOLATED := by
  induction results with
  | nil => rfl
  | cons r rest ih =>
    have hstep : applyPolicy TRI_ERROR_ARANGO_UNIQUE_CONSTRAINT_VIOLATED r =
        TRI_ERROR_ARANGO_UNIQUE_CONSTRAINT_VIOLATED := by
      unfold applyPolicy
      by_cases hr : r = TRI_ERROR_NO_ERROR
      · simp [hr]
      · by_cases hu : r = TRI_ERROR_ARANGO_UNIQUE_CONSTRAINT_VIOLATED
        · simp [hr, hu]
        · simp [hr, hu, TRI_ERROR_ARANGO_UNIQUE_CONSTRAINT_VIOLATED,
            TRI_ERROR_NO_ERROR]
    simpa [hstep] using ih

theorem foldl_applyPolicy_of_ucv_mem (results : List Nat)
    (hmem : TRI_ERROR_ARANGO_UNIQUE_CONSTRAINT_VIOLATED ∈ results) :
    ∀ r, results.foldl applyPolicy r =
      TRI_ERROR_ARANGO_UNIQUE_CONSTRAINT_VIOLATED := by
  induction results with
  | nil => cases hmem
  | cons x rest ih =>
    intro r
    rcases List.mem_cons.mp hmem with hx | hx
    · have hstep : applyPolicy r x =
          TRI_ERROR_ARANGO_UNIQUE_CONSTRAINT_VIOLATED := by
        unfold applyPolicy
        rw [← hx]
        simp [TRI_ERROR_ARANGO_UNIQUE_CONSTRAINT_VIOLATED, TRI_ERROR_NO_ERROR]
      simp only [List.foldl, hstep]
      exact applyPolicy_ucv_absorbs rest
    · simp only [List.foldl]
      exact ih hx (applyPolicy r x)

theorem foldl_applyPolicy_of_err (results : List Nat) (r : Nat)
    (hnu : TRI_ERROR_ARANGO_UNIQUE_CONSTRAINT_VIOLATED ∉ results)
    (hr : r ≠ TRI_ERROR_NO_ERROR) :
    results.foldl applyPolicy r = r := by
  induction results generalizing r with
  | nil => rfl
  | cons x rest ih =>
    have hxne : x ≠ TRI_ERROR_ARANGO_UNIQUE_CONSTRAINT_VIOLATED :=
      fun hc => hnu (hc ▸ List.mem_cons_self x rest)
    have hrest : TRI_ERROR_ARANGO_UNIQUE_CONSTRAINT_VIOLATED ∉ rest :=
      fun hc => hnu (List.mem_cons_of_mem x hc)
    have hstep : applyPolicy r x = r := by
      unfold applyPolicy
      by_cases hx0 : x = TRI_ERROR_NO_ERROR
      · simp [hx0]
      · simp [hx0, hxne, hr]
    simp only [List.foldl, hstep]
    exact ih r hrest hr

theorem foldl_applyPolicy_of_ok (results : List Nat)
    (hnu : TRI_ERROR_ARANGO_UNIQUE_CONSTRAINT_VIOLATED ∉ results) :
    results.foldl applyPolicy TRI_ERROR_NO_ERROR =
      (results.find? (fun r => r != TRI_ERROR_NO_ERROR)).getD
        TRI_ERROR_NO_ERROR := by
  induction results with
  | nil => rfl
  | cons x rest ih =>
    have hxne : x ≠ TRI_ERROR_ARANGO_UNIQUE_CONSTRAINT_VIOLATED :=
      fun hc => hnu (hc ▸ List.mem_cons_self x rest)
    have hrest : TRI_ERROR_ARANGO_UNIQUE_CONSTRAINT_VIOLATED ∉ rest :=
      fun hc => hnu (List.mem_cons_of_mem x hc)
    by_cases hx0 : x = TRI_ERROR_NO_ERROR
    · have hstep : applyPolicy TRI_ERROR_NO_ERROR x = TRI_ERROR_NO_ERROR := by
        unfold applyPolicy
        simp [hx0]
      have hfind : (x != TRI_ERROR_NO_ERROR) = false := by simp [hx0]
      simp only [List.foldl, hstep, List.find?, hfind]
      exact ih hrest
    · have hstep : applyPolicy TRI_ERROR_NO_ERROR x = x := by
        unfold applyPolicy
        simp [hx0]
      have hfind : (x != TRI_ERROR_NO_ERROR) = true := by simp [hx0]
      simp only [List.foldl, hstep, List.find?, hfind]
      simp [foldl_applyPolicy_of_err rest x hrest hx0]

theorem foldl_applyPolicy_preferred (results : List Nat) :
    results.foldl applyPolicy TRI_ERROR_NO_ERROR =
      preferredSecondaryError results := by
  unfold preferredSecondaryError
  by_cases hmem : TRI_ERROR_ARANGO_UNIQUE_CONSTRAINT_VIOLATED ∈ results
  · rw [if_pos hmem]
    exact foldl_applyPolicy_of_ucv_mem results hmem TRI_ERROR_NO_ERROR
  · rw [if_neg hmem]
    exact foldl_applyPolicy_of_ok results hmem

theorem insertSecLoop_no_oom (h : MPtr) (secs : List SecIndex) (r : Nat)
    (hno : TRI_ERROR_OUT_OF_MEMORY ∉
      secs.map (fun idx => idx.insertRes h false)) :
    insertSecLoop true h false secs r =
      (secs.map (fun idx => (idx.insert h false).1),
       (secs.map (fun idx => idx.insertRes h false)).foldl applyPolicy r) := by
  induction secs generalizing r with
  | nil => rfl
  | cons idx rest ih =>
    have hhead : idx.insertRes h false ≠ TRI_ERROR_OUT_OF_MEMORY :=
      fun hc => hno (by simp [hc])
    have hrest : TRI_ERROR_OUT_OF_MEMORY ∉
        rest.map (fun j => j.insertRes h false) :=
      fun hc => hno (by simp at hc ⊢; right; exact hc)
    unfold insertSecLoop
    dsimp only
    rw [if_neg (by simp : ¬ (true = false ∧ idx.isPersistent = false))]
    rw [SecIndex.insert_snd]
    rw [if_neg hhead]
    simp only [List.map, List.foldl, SecIndex.insert_snd]
    rw [ih _ hrest]
    unfold applyPolicy
    rfl

theorem insertSecLoop_oom_aborts (h : MPtr) (pre : List SecIndex)
    (idx : SecIndex) (post : List SecIndex) (r : Nat)
    (hpre : ∀ j ∈ pre, j.insertRes h false ≠ TRI_ERROR_OUT_OF_MEMORY)
    (hoom : idx.insertRes h false = TRI_ERROR_OUT_OF_MEMORY) :
    insertSecLoop true h false (pre ++ idx :: post) r =
      (pre.map (fun j => (j.insert h false).1) ++ idx :: post,
       TRI_ERROR_OUT_OF_MEMORY) := by
  induction pre generalizing r with
  | nil =>
    rw [List.nil_append]
    unfold insertSecLoop
    dsimp only
    rw [if_neg (by simp : ¬ (true = false ∧ idx.isPersistent = false))]
    rw [SecIndex.insert_snd]
    rw [if_pos hoom]
    have hidx : (idx.insert h false).1 = idx := by
      unfold SecIndex.insert
      dsimp only
      rw [hoom]
      simp [TRI_ERROR_OUT_OF_MEMORY, TRI_ERROR_NO_ERROR]
    simp [hidx, SecIndex.insert_snd, hoom]
  | cons j pre' ih =>
    have hj : j.insertRes h false ≠ TRI_ERROR_OUT_OF_MEMORY :=
      hpre j (List.mem_cons_self j pre')
    have hpre' : ∀ x ∈ pre', x.insertRes h false ≠ TRI_ERROR_OUT_OF_MEMORY :=
      fun x hx => hpre x (List.mem_cons_of_mem j hx)
    show insertSecLoop true h false (j :: (pre' ++ idx :: post)) r = _
    unfold insertSecLoop
    dsimp only
    rw [if_neg (by simp : ¬ (true = false ∧ j.isPersistent = false))]
    rw [SecIndex.insert_snd]
    rw [if_neg hj]
    simp only [List.map]
    rw [ih _ hpre']
    simp

/-- C9: in insertSecondaryIndexes, a non-out-of-memory failure of one index
does not stop the loop — every secondary index is still attempted and the
returned error prefers a unique-constraint violation over any other error —
while an out-of-memory result aborts the loop immediately, leaving the
remaining indexes untouched. -/
theorem insertSecondaryIndexes_error_policy (c : Collection) (h : MPtr)
    (huse : c.useSecIdx = true) :
    (TRI_ERROR_OUT_OF_MEMORY ∉
        c.secondaries.map (fun idx => idx.insertRes h false) →
      (c.insertSecondaryIndexes h false).1.secondaries =
        c.secondaries.map (fun idx => (idx.insert h false).1) ∧
      (c.insertSecondaryIndexes h false).2 =
        preferredSecondaryError
          (c.secondaries.map (fun idx => idx.insertRes h false))) ∧
    (∀ pre idx post, c.secondaries = pre ++ idx :: post →
      (∀ j ∈ pre, j.insertRes h false ≠ TRI_ERROR_OUT_OF_MEMORY) →
      idx.insertRes h false = TRI_ERROR_OUT_OF_MEMORY →
      (c.insertSecondaryIndexes h false).2 = TRI_ERROR_OUT_OF_MEMORY ∧
      (c.insertSecondaryIndexes h false).1.secondaries =
        pre.map (fun j => (j.insert h false).1) ++ idx :: post) := by
  have hguard : ¬ (c.useSecIdx = false ∧ c.persistentIndexes = 0) := by
    simp [huse]
  constructor
  · intro hno
    unfold Collection.insertSecondaryIndexes
    rw [if_neg hguard]
    dsimp only
    rw [huse, insertSecLoop_no_oom h c.secondaries TRI_ERROR_NO_ERROR hno]
    exact ⟨rfl, foldl_applyPolicy_preferred _⟩
  · intro pre idx post hsplit hpre hoom
    unfold Collection.insertSecondaryIndexes
    rw [if_neg hguard]
    dsimp only
    rw [huse, hsplit, insertSecLoop_oom_aborts h pre idx post TRI_ERROR_NO_ERROR
      hpre hoom]
    exact ⟨rfl, rfl⟩

/-- Witness for C9: with a generic failure, a unique-constraint violation
and a success among the secondary indexes, all three are attempted and the
unique-constraint violation is returned. -/
theorem insertSecondaryIndexes_error_policy_witness :
    (sampleCollPolicy.insertSecondaryIndexes sampleNewDoc false).2 =
      TRI_ERROR_ARANGO_UNIQUE_CONSTRAINT_VIOLATED ∧
    (sampleCollPolicy.insertSecondaryIndexes sampleNewDoc false).1.secondaries =
      sampleCollPolicy.secondaries.map
        (fun idx => (idx.insert sampleNewDoc false).1) := by
  have hmain := (insertSecondaryIndexes_error_policy sampleCollPolicy
    sampleNewDoc (by rfl)).1 (by decide)
  refine ⟨?_, hmain.1⟩
  rw [hmain.2]
  decide

/-! ## Revision-check vacuity lemmas (C10) -/

theorem deleteSecLoop_snd_ne (u : Bool) (hh : MPtr) (b : Bool)
    (secs : List SecIndex) (r x : Nat) (hr : r ≠ x)
    (hidx : ∀ idx ∈ secs, idx.removeRes hh b ≠ x) :
    (deleteSecLoop u hh b secs r).2 ≠ x := by
  induction secs generalizing r with
  | nil => exact hr
  | cons idx rest ih =>
    have hhead : idx.removeRes hh b ≠ x :=
      hidx idx (List.mem_cons_self idx rest)
    have hrest : ∀ j ∈ rest, j.removeRes hh b ≠ x :=
      fun j hj => hidx j (List.mem_cons_of_mem idx hj)
    unfold deleteSecLoop
    dsimp only
    split
    · exact ih r hr hrest
    · by_cases h0 : idx.removeRes hh b = TRI_ERROR_NO_ERROR
    -- the recorded result is either the head's code or the accumulator
      · have : (if (idx.remove hh b).2 ≠ TRI_ERROR_NO_ERROR
            then (idx.remove hh b).2 else r) = r := by
          simp [SecIndex.remove, h0]
        rw [this]
        exact ih r hr hrest
      · have : (if (idx.remove hh b).2 ≠ TRI_ERROR_NO_ERROR
            then (idx.remove hh b).2 else r) = idx.removeRes hh b := by
          simp [SecIndex.remove, h0]
        rw [this]
        exact ih _ hhead hrest

theorem deleteSecondaryIndexes_snd_ne (c : Collection) (hh : MPtr) (b : Bool)
    (x : Nat) (hx : x ≠ TRI_ERROR_NO_ERROR)
    (hidx : ∀ idx ∈ c.secondaries, idx.removeRes hh b ≠ x) :
    (c.deleteSecondaryIndexes hh b).2 ≠ x := by
  unfold Collection.deleteSecondaryIndexes
  split
  · exact fun hc => hx hc.symm
  · dsimp only
    exact deleteSecLoop_snd_ne c.useSecIdx hh b c.secondaries
      TRI_ERROR_NO_ERROR x (fun hc => hx hc.symm) hidx

/-- C10: the optimistic-concurrency check is vacuously satisfied when no
expected revision is supplied — checkRevision succeeds whenever the
expected-revision slice is absent — and remove performs the check only when
its input is an object, so removing by a bare key string can never fail with
Conflict (no other step of remove produces that code either, as long as the
index collaborators and the WAL do not). -/
theorem remove_by_key_string_never_conflicts :
    (∀ found : VPack, checkRevision .noneSlice found = TRI_ERROR_NO_ERROR) ∧
    (∀ (c : Collection) (slice : VPack) (ignoreRevs : Bool)
        (newRevId : String) (walRes : Nat),
      slice.isString = true →
      (∀ idx ∈ c.secondaries, ∀ (hh : MPtr) (b : Bool),
        idx.removeRes hh b ≠ TRI_ERROR_ARANGO_CONFLICT) →
      walRes ≠ TRI_ERROR_ARANGO_CONFLICT →
      (c.remove slice ignoreRevs newRevId walRes).2.1 ≠
        TRI_ERROR_ARANGO_CONFLICT) := by
  constructor
  · intro found
    unfold checkRevision
    simp [VPack.isNone]
  · intro c slice ignoreRevs newRevId walRes hstr hidx hwal
    have hobj : slice.isObject = false := VPack.isString_isObject_false slice hstr
    unfold Collection.remove
    dsimp only
    rw [if_pos hstr]
    unfold Collection.lookupDocument
    rw [if_neg (by simp [hstr] : ¬ slice.isString = false)]
    rcases hfind : lookupKey c.primary slice with _ | oldHeader
    · simp [TRI_ERROR_ARANGO_DOCUMENT_NOT_FOUND, TRI_ERROR_ARANGO_CONFLICT]
    · dsimp only
      have hcheck : (if ignoreRevs = false ∧ slice.isObject = true then
          checkRevision (slice.get "_rev") oldHeader.revSlice
          else TRI_ERROR_NO_ERROR) = TRI_ERROR_NO_ERROR := by
        rw [hobj]
        simp
      rw [hcheck]
      rw [if_neg (by simp : ¬ (TRI_ERROR_NO_ERROR ≠ TRI_ERROR_NO_ERROR))]
      have hdelne : (c.deleteSecondaryIndexes oldHeader false).2 ≠
          TRI_ERROR_ARANGO_CONFLICT :=
        deleteSecondaryIndexes_snd_ne c oldHeader false
          TRI_ERROR_ARANGO_CONFLICT
          (by simp [TRI_ERROR_ARANGO_CONFLICT, TRI_ERROR_NO_ERROR])
          (fun idx hm => hidx idx hm oldHeader false)
      by_cases hdel : (c.deleteSecondaryIndexes oldHeader false).2 =
          TRI_ERROR_NO_ERROR
      · rw [if_neg (by simp [hdel] :
          ¬ (c.deleteSecondaryIndexes oldHeader false).2 ≠ TRI_ERROR_NO_ERROR)]
        by_cases hq : ((c.deleteSecondaryIndexes oldHeader false).1.deletePrimaryIndex
            oldHeader).2 = TRI_ERROR_NO_ERROR
        · rw [if_neg (by simp [hq] :
            ¬ ((c.deleteSecondaryIndexes oldHeader false).1.deletePrimaryIndex
              oldHeader).2 ≠ TRI_ERROR_NO_ERROR)]
          unfold addOperationTransaction
          split <;> simpa using hwal
        · rw [if_pos hq]
          unfold Collection.deletePrimaryIndex at hq ⊢
          rcases hrem : (primaryRemoveKey
              (c.deleteSecondaryIndexes oldHeader false).1.primary
              oldHeader.keySlice).2 with _ | f
          · simp [hrem, TRI_ERROR_ARANGO_DOCUMENT_NOT_FOUND,
              TRI_ERROR_ARANGO_CONFLICT]
          · simp [hrem, TRI_ERROR_NO_ERROR] at hq
      · rw [if_pos hdel]
        exact hdelne

/-- Witness for C10: removing the sample document by its bare key string
succeeds (and in particular does not conflict) even though revision checking
is enabled. -/
theorem remove_by_key_string_never_conflicts_witness :
    (sampleCollSec.remove (.str "k") false "9" TRI_ERROR_NO_ERROR).2.1 ≠
      TRI_ERROR_ARANGO_CONFLICT :=
  remove_by_key_string_never_conflicts.2 sampleCollSec (.str "k") false "9"
    TRI_ERROR_NO_ERROR (by rfl)
    (by
      intro idx hm hh b
      have hidx : idx = { sampleOkIdx with entries := [sampleDoc] } := by
        simpa [sampleCollSec, sampleColl] using hm
      subst hidx
      simp [sampleOkIdx, TRI_ERROR_NO_ERROR, TRI_ERROR_ARANGO_CONFLICT])
    (by simp [TRI_ERROR_NO_ERROR, TRI_ERROR_ARANGO_CONFLICT])

/-! ## Timed-lock lemmas (C5, C6) -/

theorem beginReadTimedLoop_busy_timeout (timeout sleepPeriod : Nat)
    (env : List TryOutcome) (hbusy : ∀ o ∈ env, o = TryOutcome.busyOk) :
    ∀ waited iterations wasBlocked st,
      waited ≤ timeout →
      timeout < waited + env.length * sleepPeriod →
      (beginReadTimedLoop timeout sleepPeriod env waited iterations wasBlocked
          st).result = .lockTimeout ∧
      (beginReadTimedLoop timeout sleepPeriod env waited iterations wasBlocked
          st).lockHeld = false ∧
      (beginReadTimedLoop timeout sleepPeriod env waited iterations wasBlocked
          st).det.blocked = false := by
  induction env with
  | nil =>
    intro waited iterations wasBlocked st h1 h2
    exfalso
    simp only [List.length_nil, Nat.zero_mul, Nat.add_zero] at h2
    omega
  | cons o rest ih =>
    intro waited iterations wasBlocked st h1 h2
    have ho : o = TryOutcome.busyOk := hbusy o (List.mem_cons_self o rest)
    subst ho
    have hrest : ∀ x ∈ rest, x = TryOutcome.busyOk :=
      fun x hx => hbusy x (List.mem_cons_of_mem _ hx)
    have harith : timeout < waited + sleepPeriod + rest.length * sleepPeriod := by
      simp only [List.length_cons] at h2
      have hmul : (rest.length + 1) * sleepPeriod =
          rest.length * sleepPeriod + sleepPeriod := by ring
      omega
    unfold beginReadTimedLoop
    rw [if_neg (by decide : ¬ (TryOutcome.busyOk = TryOutcome.acquired))]
    cases wasBlocked with
    | false =>
      rw [if_pos rfl]
      dsimp only
      have hsb2 : ¬ ((detectorSetBlocked st TryOutcome.busyOk).2 =
          TRI_ERROR_DEADLOCK) := by
        simp [detectorSetBlocked, TRI_ERROR_NO_ERROR, TRI_ERROR_DEADLOCK]
      rw [if_neg hsb2]
      rw [if_neg (by decide : ¬ (TryOutcome.busyOk = TryOutcome.busyThrow))]
      by_cases ht : timeout < waited + sleepPeriod
      · rw [if_pos ht]
        exact ⟨rfl, rfl, rfl⟩
      · rw [if_neg ht]
        exact ih hrest _ _ _ _ (by omega) (by omega)
    | true =>
      rw [if_neg (by decide : ¬ (true = false))]
      by_cases h5 : 5 ≤ iterations + 1
      · rw [if_pos h5]
        rw [if_neg (by decide : ¬ (TryOutcome.busyOk = TryOutcome.busyDeadlock))]
        rw [if_neg (by decide : ¬ (TryOutcome.busyOk = TryOutcome.busyThrow))]
        by_cases ht : timeout < waited + sleepPeriod
        · rw [if_pos ht]
          exact ⟨rfl, rfl, rfl⟩
        · rw [if_neg ht]
          exact ih hrest _ _ _ _ (by omega) (by omega)
      · rw [if_neg h5]
        by_cases ht : timeout < waited + sleepPeriod
        · rw [if_pos ht]
          exact ⟨rfl, rfl, rfl⟩
        · rw [if_neg ht]
          exact ih hrest _ _ _ _ (by omega) (by omega)

theorem beginWriteTimedLoop_busy_timeout (timeout sleepPeriod : Nat)
    (env : List TryOutcome) (hbusy : ∀ o ∈ env, o = TryOutcome.busyOk) :
    ∀ waited iterations wasBlocked st,
      waited ≤ timeout →
      timeout < waited + env.length * sleepPeriod →
      (beginWriteTimedLoop timeout sleepPeriod env waited iterations wasBlocked
          st).result = .lockTimeout ∧
      (beginWriteTimedLoop timeout sleepPeriod env waited iterations wasBlocked
          st).lockHeld = false ∧
      (beginWriteTimedLoop timeout sleepPeriod env waited iterations wasBlocked
          st).det.blocked = false := by
  induction env with
  | nil =>
    intro waited iterations wasBlocked st h1 h2
    exfalso
    simp only [List.length_nil, Nat.zero_mul, Nat.add_zero] at h2
    omega
  | cons o rest ih =>
    intro waited iterations wasBlocked st h1 h2
    have ho : o = TryOutcome.busyOk := hbusy o (List.mem_cons_self o rest)
    subst ho
    have hrest : ∀ x ∈ rest, x = TryOutcome.busyOk :=
      fun x hx => hbusy x (List.mem_cons_of_mem _ hx)
    have harith : timeout < waited + sleepPeriod + rest.length * sleepPeriod := by
      simp only [List.length_cons] at h2
      have hmul : (rest.length + 1) * sleepPeriod =
          rest.length * sleepPeriod + sleepPeriod := by ring
      omega
    unfold beginWriteTimedLoop
    rw [if_neg (by decide : ¬ (TryOutcome.busyOk = TryOutcome.acquired))]
    cases wasBlocked with
    | false =>
      rw [if_pos rfl]
      dsimp only
      have hsb2 : ¬ ((detectorSetBlocked st TryOutcome.busyOk).2 =
          TRI_ERROR_DEADLOCK) := by
        simp [detectorSetBlocked, TRI_ERROR_NO_ERROR, TRI_ERROR_DEADLOCK]
      rw [if_neg hsb2]
      rw [if_neg (by decide : ¬ (TryOutcome.busyOk = TryOutcome.busyThrow))]
      by_cases ht : timeout < waited + sleepPeriod
      · rw [if_pos ht]
        exact ⟨rfl, rfl, rfl⟩
      · rw [if_neg ht]
        exact ih hrest _ _ _ _ (by omega) (by omega)
    | true =>
      rw [if_neg (by decide : ¬ (true = false))]
      by_cases h5 : 5 ≤ iterations + 1
      · rw [if_pos h5]
        rw [if_neg (by decide : ¬ (TryOutcome.busyOk = TryOutcome.busyDeadlock))]
        rw [if_neg (by decide : ¬ (TryOutcome.busyOk = TryOutcome.busyThrow))]
        by_cases ht : timeout < waited + sleepPeriod
        · rw [if_pos ht]
          exact ⟨rfl, rfl, rfl⟩
        · rw [if_neg ht]
          exact ih hrest _ _ _ _ (by omega) (by omega)
      · rw [if_neg h5]
        by_cases ht : timeout < waited + sleepPeriod
        · rw [if_pos ht]
          exact ⟨rfl, rfl, rfl⟩
        · rw [if_neg ht]
          exact ih hrest _ _ _ _ (by omega) (by omega)

theorem beginReadTimedLoop_clears_blocked (timeout sleepPeriod : Nat)
    (env : List TryOutcome) :
    ∀ waited iterations wasBlocked st,
      st.blocked = wasBlocked →
      (beginReadTimedLoop timeout sleepPeriod env waited iterations wasBlocked
          st).result ≠ .pending →
      (beginReadTimedLoop timeout sleepPeriod env waited iterations wasBlocked
          st).det.blocked = false := by
  induction env with
  | nil =>
    intro waited iterations wasBlocked st hinv hne
    exact absurd rfl hne
  | cons o rest ih =>
    intro waited iterations wasBlocked st hinv hne
    unfold beginReadTimedLoop at hne ⊢
    by_cases hacq : o = TryOutcome.acquired
    · rw [if_pos hacq] at hne ⊢
      cases wasBlocked with
      | false => simpa [detectorAddActive] using hinv
      | true => simp [detectorAddActive]
    · rw [if_neg hacq] at hne ⊢
      cases wasBlocked with
      | false =>
        rw [if_pos rfl] at hne ⊢
        dsimp only at hne ⊢
        by_cases hdl : (detectorSetBlocked st o).2 = TRI_ERROR_DEADLOCK
        · rw [if_pos hdl] at hne ⊢
          cases o <;>
            simp_all [detectorSetBlocked, TRI_ERROR_NO_ERROR,
              TRI_ERROR_DEADLOCK]
        · rw [if_neg hdl] at hne ⊢
          by_cases hth : o = TryOutcome.busyThrow
          · rw [if_pos hth] at hne ⊢
            simp [detectorUnsetBlocked]
          · rw [if_neg hth] at hne ⊢
            by_cases ht : timeout < waited + sleepPeriod
            · rw [if_pos ht] at hne ⊢
              simp [detectorUnsetBlocked]
            · rw [if_neg ht] at hne ⊢
              refine ih _ _ _ _ ?_ hne
              cases o <;> simp_all [detectorSetBlocked]
      | true =>
        rw [if_neg (by decide : ¬ (true = false))] at hne ⊢
        by_cases h5 : 5 ≤ iterations + 1
        · rw [if_pos h5] at hne ⊢
          by_cases hdl : o = TryOutcome.busyDeadlock
          · rw [if_pos hdl] at hne ⊢
            simp [detectorUnsetBlocked]
          · rw [if_neg hdl] at hne ⊢
            by_cases hth : o = TryOutcome.busyThrow
            · rw [if_pos hth] at hne ⊢
              simp [detectorUnsetBlocked]
            · rw [if_neg hth] at hne ⊢
              by_cases ht : timeout < waited + sleepPeriod
              · rw [if_pos ht] at hne ⊢
                simp [detectorUnsetBlocked]
              · rw [if_neg ht] at hne ⊢
                exact ih _ _ _ _ hinv hne
        · rw [if_neg h5] at hne ⊢
          by_cases ht : timeout < waited + sleepPeriod
          · rw [if_pos ht] at hne ⊢
            simp [detectorUnsetBlocked]
          · rw [if_neg ht] at hne ⊢
            exact ih _ _ _ _ hinv hne

theorem beginWriteTimedLoop_clears_blocked (timeout sleepPeriod : Nat)
    (env : List TryOutcome) :
    ∀ waited iterations wasBlocked st,
      st.blocked = wasBlocked →
      (beginWriteTimedLoop timeout sleepPeriod env waited iterations wasBlocked
          st).result ≠ .pending →
      (beginWriteTimedLoop timeout sleepPeriod env waited iterations wasBlocked
          st).det.blocked = false := by
  induction env with
  | nil =>
    intro waited iterations wasBlocked st hinv hne
    exact absurd rfl hne
  | cons o rest ih =>
    intro waited iterations wasBlocked st hinv hne
    unfold beginWriteTimedLoop at hne ⊢
    by_cases hacq : o = TryOutcome.acquired
    · rw [if_pos hacq] at hne ⊢
      cases wasBlocked with
      | false => simpa [detectorAddActive] using hinv
      | true => simp [detectorAddActive]
    · rw [if_neg hacq] at hne ⊢
      cases wasBlocked with
      | false =>
        rw [if_pos rfl] at hne ⊢
        dsimp only at hne ⊢
        by_cases hdl : (detectorSetBlocked st o).2 = TRI_ERROR_DEADLOCK
        · rw [if_pos hdl] at hne ⊢
          cases o <;>
            simp_all [detectorSetBlocked, TRI_ERROR_NO_ERROR,
              TRI_ERROR_DEADLOCK]
        · rw [if_neg hdl] at hne ⊢
          by_cases hth : o = TryOutcome.busyThrow
          · rw [if_pos hth] at hne ⊢
            simp [detectorUnsetBlocked]
          · rw [if_neg hth] at hne ⊢
            by_cases ht : timeout < waited + sleepPeriod
            · rw [if_pos ht] at hne ⊢
              simp [detectorUnsetBlocked]
            · rw [if_neg ht] at hne ⊢
              refine ih _ _ _ _ ?_ hne
              cases o <;> simp_all [detectorSetBlocked]
      | true =>
        rw [if_neg (by decide : ¬ (true = false))] at hne ⊢
        by_cases h5 : 5 ≤ iterations + 1
        · rw [if_pos h5] at hne ⊢
          by_cases hdl : o = TryOutcome.busyDeadlock
          · rw [if_pos hdl] at hne ⊢
            simp [detectorUnsetBlocked]
          · rw [if_neg hdl] at hne ⊢
            by_cases hth : o = TryOutcome.busyThrow
            · rw [if_pos hth] at hne ⊢
              simp [detectorUnsetBlocked]
            · rw [if_neg hth] at hne ⊢
              by_cases ht : timeout < waited + sleepPeriod
              · rw [if_pos ht] at hne ⊢
                simp [detectorUnsetBlocked]
              · rw [if_neg ht] at hne ⊢
                exact ih _ _ _ _ hinv hne
        · rw [if_neg h5] at hne ⊢
          by_cases ht : timeout < waited + sleepPeriod
          · rw [if_pos ht] at hne ⊢
            simp [detectorUnsetBlocked]
          · rw [if_neg ht] at hne ⊢
            exact ih _ _ _ _ hinv hne

/-- C5: for both timed lock acquisitions, a caller-passed timeout of 0 is
replaced by the 15-minute default (the acquisition behaves exactly as if
called with 900000000 microseconds), and once the accumulated sleep
intervals exceed the timeout — the lock never becoming free — the
acquisition returns LockTimeout without holding the lock. -/
theorem timed_lock_default_timeout_and_lockTimeout :
    (∀ env sleepPeriod st, beginReadTimed false env 0 sleepPeriod st =
        beginReadTimed false env (15 * 60 * 1000 * 1000) sleepPeriod st) ∧
    (∀ env sleepPeriod st, beginWriteTimed false env 0 sleepPeriod st =
        beginWriteTimed false env (15 * 60 * 1000 * 1000) sleepPeriod st) ∧
    (∀ env timeout sleepPeriod st, (∀ o ∈ env, o = TryOutcome.busyOk) →
      (if timeout = 0 then 15 * 60 * 1000 * 1000 else timeout) <
        env.length * sleepPeriod →
      (beginReadTimed false env timeout sleepPeriod st).result =
        .lockTimeout ∧
      (beginReadTimed false env timeout sleepPeriod st).lockHeld = false) ∧
    (∀ env timeout sleepPeriod st, (∀ o ∈ env, o = TryOutcome.busyOk) →
      (if timeout = 0 then 15 * 60 * 1000 * 1000 else timeout) <
        env.length * sleepPeriod →
      (beginWriteTimed false env timeout sleepPeriod st).result =
        .lockTimeout ∧
      (beginWriteTimed false env timeout sleepPeriod st).lockHeld = false) := by
  refine ⟨?_, ?_, ?_, ?_⟩
  · intro env sleepPeriod st
    unfold beginReadTimed
    simp
  · intro env sleepPeriod st
    unfold beginWriteTimed
    simp
  · intro env timeout sleepPeriod st hbusy hlt
    unfold beginReadTimed
    rw [if_neg (by decide : ¬ (false = true))]
    have h := beginReadTimedLoop_busy_timeout
      (if timeout = 0 then 15 * 60 * 1000 * 1000 else timeout) sleepPeriod env
      hbusy 0 0 false st (Nat.zero_le _) (by simpa using hlt)
    exact ⟨h.1, h.2.1⟩
  · intro env timeout sleepPeriod st hbusy hlt
    unfold beginWriteTimed
    rw [if_neg (by decide : ¬ (false = true))]
    have h := beginWriteTimedLoop_busy_timeout
      (if timeout = 0 then 15 * 60 * 1000 * 1000 else timeout) sleepPeriod env
      hbusy 0 0 false st (Nat.zero_le _) (by simpa using hlt)
    exact ⟨h.1, h.2.1⟩

/-- Witness for C5 at concrete environments. -/
theorem timed_lock_default_timeout_and_lockTimeout_witness :
    beginReadTimed false [TryOutcome.busyOk] 0 2
        { blocked := false, active := false } =
      beginReadTimed false [TryOutcome.busyOk] (15 * 60 * 1000 * 1000) 2
        { blocked := false, active := false } ∧
    (beginReadTimed false [TryOutcome.busyOk] 1 2
        { blocked := false, active := false }).result = .lockTimeout ∧
    (beginWriteTimed false [TryOutcome.busyOk] 1 2
        { blocked := false, active := false }).result = .lockTimeout :=
  ⟨timed_lock_default_timeout_and_lockTimeout.1 [TryOutcome.busyOk] 2
     { blocked := false, active := false },
   (timed_lock_default_timeout_and_lockTimeout.2.2.1 [TryOutcome.busyOk] 1 2
     { blocked := false, active := false } (by decide) (by decide)).1,
   (timed_lock_default_timeout_and_lockTimeout.2.2.2 [TryOutcome.busyOk] 1 2
     { blocked := false, active := false } (by decide) (by decide)).1⟩

/-- C6: for every exit path of a timed lock acquisition — success, deadlock,
timeout, out-of-memory/exception — any blocked registration made with the
deadlock detector during the acquisition is cleared before the function
returns (pending marks an exhausted environment, not an exit). -/
theorem timed_lock_clears_blocked_registration :
    (∀ nolock env timeout sleepPeriod st,
      DetectorState.blocked st = false →
      (beginReadTimed nolock env timeout sleepPeriod st).result ≠ .pending →
      (beginReadTimed nolock env timeout sleepPeriod st).det.blocked =
        false) ∧
    (∀ nolock env timeout sleepPeriod st,
      DetectorState.blocked st = false →
      (beginWriteTimed nolock env timeout sleepPeriod st).result ≠ .pending →
      (beginWriteTimed nolock env timeout sleepPeriod st).det.blocked =
        false) := by
  constructor
  · intro nolock env timeout sleepPeriod st hb hne
    cases nolock with
    | true => simpa [beginReadTimed] using hb
    | false =>
      unfold beginReadTimed at hne ⊢
      rw [if_neg (by decide : ¬ (false = true))] at hne ⊢
      exact beginReadTimedLoop_clears_blocked _ _ env _ _ _ _ hb hne
  · intro nolock env timeout sleepPeriod st hb hne
    cases nolock with
    | true => simpa [beginWriteTimed] using hb
    | false =>
      unfold beginWriteTimed at hne ⊢
      rw [if_neg (by decide : ¬ (false = true))] at hne ⊢
      exact beginWriteTimedLoop_clears_blocked _ _ env _ _ _ _ hb hne

/-- Witness for C6 at a concrete successful acquisition. -/
theorem timed_lock_clears_blocked_registration_witness :
    (beginReadTimed false [TryOutcome.acquired] 5 1
        { blocked := false, active := false }).det.blocked = false ∧
    (beginWriteTimed false [TryOutcome.acquired] 5 1
        { blocked := false, active := false }).det.blocked = false :=
  ⟨timed_lock_clears_blocked_registration.1 false [TryOutcome.acquired] 5 1
     { blocked := false, active := false } (by rfl) (by decide),
   timed_lock_clears_blocked_registration.2 false [TryOutcome.acquired] 5 1
     { blocked := false, active := false } (by rfl) (by decide)⟩

/-! ## Index-creation lemmas (C7) -/

theorem charListLe_total (a : List Char) :
    ∀ b, charListLe a b = true ∨ charListLe b a = true := by
  induction a with
  | nil =>
    intro b
    left
    rfl
  | cons c cs ih =>
    intro b
    cases b with
    | nil =>
      right
      rfl
    | cons d ds =>
      by_cases h1 : c.toNat < d.toNat
      · left
        simp [charListLe, h1]
      · by_cases h2 : d.toNat < c.toNat
        · right
          simp [charListLe, h1, h2]
        · rcases ih ds with h | h
          · left
            simp [charListLe, h1, h2, h]
          · right
            simp [charListLe, h1, h2, h]

theorem charListLe_trans (a : List Char) :
    ∀ b c, charListLe a b = true → charListLe b c = true →
      charListLe a c = true := by
  induction a with
  | nil =>
    intro b c _ _
    rfl
  | cons x xs ih =>
    intro b c hab hbc
    cases b with
    | nil => simp [charListLe] at hab
    | cons y ys =>
      cases c with
      | nil => simp [charListLe] at hbc
      | cons z zs =>
        by_cases hxy : x.toNat < y.toNat
        · by_cases hyz : y.toNat < z.toNat
          · have hxz : x.toNat < z.toNat := by omega
            simp [charListLe, hxz]
          · by_cases hzy : z.toNat < y.toNat
            · simp [charListLe, hyz, hzy] at hbc
            · have hxz : x.toNat < z.toNat := by omega
              simp [charListLe, hxz]
        · by_cases hyx : y.toNat < x.toNat
          · simp [charListLe, hxy, hyx] at hab
          · simp only [charListLe, if_neg hxy, if_neg hyx] at hab
            by_cases hyz : y.toNat < z.toNat
            · have hxz : x.toNat < z.toNat := by omega
              simp [charListLe, hxz]
            · by_cases hzy : z.toNat < y.toNat
              · simp [charListLe, hyz, hzy] at hbc
              · simp only [charListLe, if_neg hyz, if_neg hzy] at hbc
                have hxz : ¬ x.toNat < z.toNat := by omega
                have hzx : ¬ z.toNat < x.toNat := by omega
                simp only [charListLe, if_neg hxz, if_neg hzx]
                exact ih ys zs hab hbc

theorem charListLe_antisymm (a : List Char) :
    ∀ b, charListLe a b = true → charListLe b a = true → a = b := by
  induction a with
  | nil =>
    intro b _ hba
    cases b with
    | nil => rfl
    | cons d ds => simp [charListLe] at hba
  | cons c cs ih =>
    intro b hab hba
    cases b with
    | nil => simp [charListLe] at hab
    | cons d ds =>
      by_cases h1 : c.toNat < d.toNat
      · have h1' : ¬ d.toNat < c.toNat := by omega
        simp [charListLe, h1, h1'] at hba
      · by_cases h2 : d.toNat < c.toNat
        · simp [charListLe, h1, h2] at hab
        · simp only [charListLe, if_neg h1, if_neg h2] at hab
          simp only [charListLe, if_neg h2, if_neg h1] at hba
          have h3 : c.toNat = d.toNat := by omega
          have hcd : c = d := by
            apply Char.ext
            apply UInt32.ext
            exact h3
          rw [hcd, ih ds hab hba]

theorem pathEqUpTo_self (xs : List String) (m : Nat) :
    pathEqUpTo xs xs m = true := by
  unfold pathEqUpTo
  simp

theorem orderedMatch_self (l : List (List String)) :
    orderedMatch l l = true := by
  unfold orderedMatch
  rw [List.all_eq_true]
  intro i hi
  simp [pathEqUpTo_self]

theorem find?_append_of_none {α : Type} (p : α → Bool) (l₁ l₂ : List α)
    (h : l₁.find? p = none) : (l₁ ++ l₂).find? p = l₂.find? p := by
  induction l₁ with
  | nil => rfl
  | cons a rest ih =>
    rcases hpa : p a with _ | _
    · rw [List.find?_cons_of_neg _ (by simp [hpa])] at h
      rw [List.cons_append, List.find?_cons_of_neg _ (by simp [hpa])]
      exact ih h
    · rw [List.find?_cons_of_pos _ hpa] at h
      cases h

theorem pathIndexMatches_fresh (t : IndexType) (iid : Nat)
    (unique sparse : Bool) (fields : List (List String))
    (ht : t = IndexType.hashIndexType ∨ t = IndexType.skiplistIndexType) :
    pathIndexMatches
      { iid := iid, idxType := t, unique := unique, sparse := sparse,
        fields := fields }
      fields t (if sparse then 1 else 0) unique false = true := by
  unfold pathIndexMatches
  rcases ht with ht | ht <;> subst ht <;>
    cases sparse <;> simp [orderedMatch_self]

/-- Sorting makes the normalized hash-index field list invariant under
permutations of the attribute list. -/
theorem namesByAttributeNames_perm_hash (attrs attrs' : List String)
    (hperm : attrs.Perm attrs') :
    namesByAttributeNames attrs true = namesByAttributeNames attrs' true := by
  unfold namesByAttributeNames
  dsimp only
  haveI hto : IsTotal String (fun a b => stringLe a b = true) :=
    ⟨fun a b => charListLe_total a.data b.data⟩
  haveI htr : IsTrans String (fun a b => stringLe a b = true) :=
    ⟨fun a b c hab hbc => charListLe_trans a.data b.data c.data hab hbc⟩
  haveI han : IsAntisymm String (fun a b => stringLe a b = true) :=
    ⟨fun a b hab hba => String.ext (charListLe_antisymm a.data b.data hab hba)⟩
  have hsorted : List.insertionSort (fun a b => stringLe a b = true) attrs =
      List.insertionSort (fun a b => stringLe a b = true) attrs' := by
    have hp := ((List.perm_insertionSort (fun a b => stringLe a b = true)
      attrs).trans hperm).trans
      (List.perm_insertionSort (fun a b => stringLe a b = true) attrs').symm
    exact List.eq_of_perm_of_sorted hp
      (List.sorted_insertionSort (fun a b => stringLe a b = true) attrs)
      (List.sorted_insertionSort (fun a b => stringLe a b = true) attrs')
  rw [hsorted]
  rfl

/-- C7: index creation is idempotent: issuing creation twice with identical
type, field set, uniqueness and sparsity returns the already-existing index
the second time and never registers a duplicate — for hash-style indexes the
attribute order is irrelevant (the attribute list is normalized by sorting),
for skiplist-style indexes the order is significant and an identical ordered
attribute list is idempotent. -/
theorem index_creation_idempotent :
    (∀ (reg : IndexRegistry) (attrs attrs' : List String) (iid iid' : Nat)
        (sparse unique : Bool) (fres fres' : Nat) (idx : PathIndex),
      attrs.Perm attrs' →
      (createHashIndexDocumentCollection reg attrs iid sparse unique
          fres).2.1 = some idx →
      createHashIndexDocumentCollection
          (createHashIndexDocumentCollection reg attrs iid sparse unique
            fres).1 attrs' iid' sparse unique fres' =
        ((createHashIndexDocumentCollection reg attrs iid sparse unique
            fres).1, some idx, false)) ∧
    (∀ (reg : IndexRegistry) (attrs : List String) (iid iid' : Nat)
        (sparse unique : Bool) (fres fres' : Nat) (idx : PathIndex),
      (createSkiplistIndexDocumentCollection reg attrs iid sparse unique
          fres).2.1 = some idx →
      createSkiplistIndexDocumentCollection
          (createSkiplistIndexDocumentCollection reg attrs iid sparse unique
            fres).1 attrs iid' sparse unique fres' =
        ((createSkiplistIndexDocumentCollection reg attrs iid sparse unique
            fres).1, some idx, false)) := by
  constructor
  · intro reg attrs attrs' iid iid' sparse unique fres fres' idx hperm hfirst
    have hfields : namesByAttributeNames attrs' true =
        namesByAttributeNames attrs true :=
      (namesByAttributeNames_perm_hash attrs attrs' hperm).symm
    unfold createHashIndexDocumentCollection at hfirst ⊢
    dsimp only at hfirst ⊢
    rw [hfields]
    rcases hlook : lookupPathIndexDocumentCollection reg.indexes
        (namesByAttributeNames attrs true) IndexType.hashIndexType
        (if sparse then 1 else 0) unique false with _ | found
    · rw [hlook] at hfirst
      dsimp only at hfirst
      by_cases hfres : fres ≠ TRI_ERROR_NO_ERROR
      · rw [if_pos hfres] at hfirst
        exact absurd hfirst (by simp)
      · rw [if_neg hfres] at hfirst
        dsimp only at hfirst
        simp only [if_neg hfres]
        have hsecond : lookupPathIndexDocumentCollection
            (reg.addIndex
              { iid := iid, idxType := IndexType.hashIndexType,
                unique := unique, sparse := sparse,
                fields := namesByAttributeNames attrs true }).indexes
            (namesByAttributeNames attrs true) IndexType.hashIndexType
            (if sparse then 1 else 0) unique false =
            some
              { iid := iid, idxType := IndexType.hashIndexType,
                unique := unique, sparse := sparse,
                fields := namesByAttributeNames attrs true } := by
          unfold IndexRegistry.addIndex
          unfold lookupPathIndexDocumentCollection at hlook ⊢
          dsimp only
          rw [find?_append_of_none _ _ _ hlook]
          have hmatch := pathIndexMatches_fresh IndexType.hashIndexType iid
            unique sparse (namesByAttributeNames attrs true) (Or.inl rfl)
          simp [List.find?, hmatch]
        rw [hsecond]
        dsimp only
        rw [hfirst]
    · rw [hlook] at hfirst
      dsimp only at hfirst
      rw [hlook]
      dsimp only
      rw [hfirst]
  · intro reg attrs iid iid' sparse unique fres fres' idx hfirst
    unfold createSkiplistIndexDocumentCollection at hfirst ⊢
    dsimp only at hfirst ⊢
    rcases hlook : lookupPathIndexDocumentCollection reg.indexes
        (namesByAttributeNames attrs false) IndexType.skiplistIndexType
        (if sparse then 1 else 0) unique false with _ | found
    · rw [hlook] at hfirst
      dsimp only at hfirst
      by_cases hfres : fres ≠ TRI_ERROR_NO_ERROR
      · rw [if_pos hfres] at hfirst
        exact absurd hfirst (by simp)
      · rw [if_neg hfres] at hfirst
        dsimp only at hfirst
        simp only [if_neg hfres]
        have hsecond : lookupPathIndexDocumentCollection
            (reg.addIndex
              { iid := iid, idxType := IndexType.skiplistIndexType,
                unique := unique, sparse := sparse,
                fields := namesByAttributeNames attrs false }).indexes
            (namesByAttributeNames attrs false) IndexType.skiplistIndexType
            (if sparse then 1 else 0) unique false =
            some
              { iid := iid, idxType := IndexType.skiplistIndexType,
                unique := unique, sparse := sparse,
                fields := namesByAttributeNames attrs false } := by
          unfold IndexRegistry.addIndex
          unfold lookupPathIndexDocumentCollection at hlook ⊢
          dsimp only
          rw [find?_append_of_none _ _ _ hlook]
          have hmatch := pathIndexMatches_fresh IndexType.skiplistIndexType
            iid unique sparse (namesByAttributeNames attrs false) (Or.inr rfl)
          simp [List.find?, hmatch]
        rw [hsecond]
        dsimp only
        rw [hfirst]
    · rw [hlook] at hfirst
      dsimp only at hfirst
      rw [hlook]
      dsimp only
      rw [hfirst]

/-- Witness for C7: a hash index on two attributes created once and then
requested again with the attributes in the opposite order returns the
existing index and leaves the registry unchanged; likewise a skiplist index
requested twice with the identical attribute list. -/
theorem index_creation_idempotent_witness :
    createHashIndexDocumentCollection
        (createHashIndexDocumentCollection sampleRegistry ["a", "b"] 1 false
          false TRI_ERROR_NO_ERROR).1 ["b", "a"] 2 false false
        TRI_ERROR_NO_ERROR =
      ((createHashIndexDocumentCollection sampleRegistry ["a", "b"] 1 false
          false TRI_ERROR_NO_ERROR).1,
       some
         { iid := 1, idxType := IndexType.hashIndexType, unique := false,
           sparse := false, fields := [["a"], ["b"]] }, false) ∧
    createSkiplistIndexDocumentCollection
        (createSkiplistIndexDocumentCollection sampleRegistry ["a", "b"] 3
          false false TRI_ERROR_NO_ERROR).1 ["a", "b"] 4 false false
        TRI_ERROR_NO_ERROR =
      ((createSkiplistIndexDocumentCollection sampleRegistry ["a", "b"] 3
          false false TRI_ERROR_NO_ERROR).1,
       some
         { iid := 3, idxType := IndexType.skiplistIndexType, unique := false,
           sparse := false, fields := [["a"], ["b"]] }, false) :=
  ⟨index_creation_idempotent.1 sampleRegistry ["a", "b"] ["b", "a"] 1 2 false
     false TRI_ERROR_NO_ERROR TRI_ERROR_NO_ERROR
     { iid := 1, idxType := IndexType.hashIndexType, unique := false,
       sparse := false, fields := [["a"], ["b"]] }
     (List.Perm.swap "b" "a" []) (by decide),
   index_creation_idempotent.2 sampleRegistry ["a", "b"] 3 4 false false
     TRI_ERROR_NO_ERROR TRI_ERROR_NO_ERROR
     { iid := 3, idxType := IndexType.skiplistIndexType, unique := false,
       sparse := false, fields := [["a"], ["b"]] } (by decide)⟩

/-! ## Recovery-replay lemmas (C8) -/

theorem setLastRevisionSt_fields (st : OpenIteratorState) (rid : Nat)
    (force : Bool) :
    (setLastRevisionSt st rid force).primary = st.primary ∧
    (setLastRevisionSt st rid force).numberDocuments = st.numberDocuments ∧
    (setLastRevisionSt st rid force).deletions = st.deletions ∧
    (setLastRevisionSt st rid force).stats = st.stats ∧
    (setLastRevisionSt st rid force).fid = st.fid := by
  unfold setLastRevisionSt
  split
  · split <;> exact ⟨rfl, rfl, rfl, rfl, rfl⟩
  · exact ⟨rfl, rfl, rfl, rfl, rfl⟩

theorem find?_map_update {β : Type} (l : List (Nat × β)) (fid : Nat)
    (f : β → β) :
    (l.map (fun kv => if kv.1 = fid then (kv.1, f kv.2) else kv)).find?
        (fun kv => kv.1 == fid) =
      (l.find? (fun kv => kv.1 == fid)).map (fun kv => (kv.1, f kv.2)) := by
  induction l with
  | nil => rfl
  | cons a rest ih =>
    by_cases ha : a.1 = fid
    · have hb : (a.1 == fid) = true := by simp [ha]
      simp [List.find?, hb, ha]
    · have hb : (a.1 == fid) = false := by simp [ha]
      simp [List.find?, hb, ha, ih]

theorem find?_findDatafileStats (stats : List (Nat × DfStats)) (fid : Nat) :
    (findDatafileStats stats fid).find? (fun kv => kv.1 == fid) =
      some (match stats.find? (fun kv => kv.1 == fid) with
            | some kv => kv
            | none => (fid, emptyDfStats)) := by
  unfold findDatafileStats
  rcases hf : stats.find? (fun kv => kv.1 == fid) with _ | kv
  · simp only [hf]
    simp [List.find?]
  · simp [hf]

theorem statDeletions_updateDfStats (stats : List (Nat × DfStats)) (fid : Nat)
    (f : DfStats → DfStats) :
    statDeletions (updateDfStats stats fid f) fid =
      (f (match stats.find? (fun kv => kv.1 == fid) with
          | some kv => kv.2
          | none => emptyDfStats)).numberDeletions := by
  unfold statDeletions updateDfStats
  rw [find?_map_update, find?_findDatafileStats]
  rcases hf : stats.find? (fun kv => kv.1 == fid) with _ | kv
  · simp [hf, emptyDfStats]
  · simp [hf]

theorem statDeletions_findDatafileStats (stats : List (Nat × DfStats))
    (fid : Nat) :
    statDeletions (findDatafileStats stats fid) fid =
      statDeletions stats fid := by
  unfold statDeletions
  rw [find?_findDatafileStats]
  rcases hf : stats.find? (fun kv => kv.1 == fid) with _ | kv
  · simp [hf, emptyDfStats]
  · simp [hf]

theorem statDeletions_bump (stats : List (Nat × DfStats)) (fid : Nat) :
    statDeletions (updateDfStats stats fid (fun d =>
        { d with numberDeletions := d.numberDeletions + 1 })) fid =
      statDeletions stats fid + 1 := by
  rw [statDeletions_updateDfStats]
  unfold statDeletions
  rcases hf : stats.find? (fun kv => kv.1 == fid) with _ | kv
  · simp [hf, emptyDfStats]
  · simp [hf]

/-- C8: recovery replay of the marker sequence insert(k at revision 1),
update(k at revision 2), delete(k at revision 3) over an empty collection
leaves the primary index empty and the live document count at 0 with the
revision high-water mark at least 3; and a tombstone marker whose key is
absent from the primary index is counted as a deletion statistic and is
otherwise skipped (primary index and live counter unchanged). -/
theorem recovery_replay_and_unseen_tombstone :
    (∀ (k : String) (s1 s2 s3 : Int),
      (replayMarkers emptyOpenState
        [(OpenMarkerKind.document,
          { key := k, rev := 1, fid := 1, size := s1 }),
         (OpenMarkerKind.document,
          { key := k, rev := 2, fid := 1, size := s2 }),
         (OpenMarkerKind.deletion,
          { key := k, rev := 3, fid := 1, size := s3 })]).primary = [] ∧
      (replayMarkers emptyOpenState
        [(OpenMarkerKind.document,
          { key := k, rev := 1, fid := 1, size := s1 }),
         (OpenMarkerKind.document,
          { key := k, rev := 2, fid := 1, size := s2 }),
         (OpenMarkerKind.deletion,
          { key := k, rev := 3, fid := 1, size := s3 })]).numberDocuments =
        0 ∧
      3 ≤ (replayMarkers emptyOpenState
        [(OpenMarkerKind.document,
          { key := k, rev := 1, fid := 1, size := s1 }),
         (OpenMarkerKind.document,
          { key := k, rev := 2, fid := 1, size := s2 }),
         (OpenMarkerKind.deletion,
          { key := k, rev := 3, fid := 1, size := s3 })]).revision) ∧
    (∀ (st : OpenIteratorState) (m : OpenMarker),
      st.primary.find? (fun h => h.key == m.key) = none →
      (openIteratorHandleDeletionMarker st m).1.primary = st.primary ∧
      (openIteratorHandleDeletionMarker st m).1.numberDocuments =
        st.numberDocuments ∧
      (openIteratorHandleDeletionMarker st m).1.deletions =
        st.deletions + 1 ∧
      statDeletions (openIteratorHandleDeletionMarker st m).1.stats m.fid =
        statDeletions st.stats m.fid + 1) := by
  constructor
  · intro k s1 s2 s3
    refine ⟨?_, ?_, ?_⟩ <;>
      simp [replayMarkers, openIteratorStep, openIteratorHandleDocumentMarker,
        openIteratorHandleDeletionMarker, setLastRevisionSt, emptyOpenState,
        findDatafileStats, updateDfStats, List.find?, List.filter]
  · intro st m hnone
    unfold openIteratorHandleDeletionMarker
    dsimp only
    obtain ⟨hp1, hn1, hd1, hs1, hf1⟩ := setLastRevisionSt_fields st m.rev false
    by_cases hfid : ¬ (setLastRevisionSt st m.rev false).fid = m.fid
    · rw [if_pos hfid]
      dsimp only
      rw [hp1, hnone]
      dsimp only
      refine ⟨rfl, hn1, ?_, ?_⟩
      · rw [hd1]
      · rw [statDeletions_bump, statDeletions_findDatafileStats, hs1]
    · rw [if_neg hfid]
      dsimp only
      rw [hp1, hnone]
      dsimp only
      refine ⟨rfl, hn1, ?_, ?_⟩
      · rw [hd1]
      · rw [statDeletions_bump, hs1]

/-- Witness for C8: the first conjunct at key k and unit sizes, and the
unseen-tombstone conjunct at a concrete empty state. -/
theorem recovery_replay_and_unseen_tombstone_witness :
    (replayMarkers emptyOpenState
      [(OpenMarkerKind.document, { key := "k", rev := 1, fid := 1, size := 8 }),
       (OpenMarkerKind.document, { key := "k", rev := 2, fid := 1, size := 8 }),
       (OpenMarkerKind.deletion,
        { key := "k", rev := 3, fid := 1, size := 8 })]).numberDocuments = 0 ∧
    (openIteratorHandleDeletionMarker emptyOpenState
      { key := "x", rev := 1, fid := 1, size := 8 }).1.primary = [] ∧
    statDeletions (openIteratorHandleDeletionMarker emptyOpenState
      { key := "x", rev := 1, fid := 1, size := 8 }).1.stats 1 = 1 :=
  ⟨(recovery_replay_and_unseen_tombstone.1 "k" 8 8 8).2.1,
   (recovery_replay_and_unseen_tombstone.2 emptyOpenState
     { key := "x", rev := 1, fid := 1, size := 8 } (by rfl)).1,
   (recovery_replay_and_unseen_tombstone.2 emptyOpenState
     { key := "x", rev := 1, fid := 1, size := 8 } (by rfl)).2.2.2⟩
